import Mathlib

/-!
# raylib camera module (`src/camera.h`)

A shallow embedding of the camera system of raylib: the module state (the `static`
globals of `camera.h`), `SetCameraMode`, `UpdateCamera` and the control setters.

Conventions of the embedding

* C `float` values are elements of an arbitrary linearly ordered field `R` with exact
  arithmetic (`ℚ` to run the definitions, `ℝ` to reason about the real `sin`/`cos`).
* C `int` values are `Int`; an `int` used in a `float` expression is cast to `R`;
  `int / int` is `Int.tdiv` (C division truncates toward zero). Signed overflow is
  undefined in C: `cameraMoveCounter++` is modelled below `INT_MAX`, as `+ 1`.
* `PI` is the decimal constant of `camera.h`, so `DEG2RAD` is a positive rational.
* `sin` and `cos` of `<math.h>` are the two fields of a `MathH R` argument.
* The module state is passed explicitly (`CameraState`), and so is the host on which the
  raylib input functions act (`Host`).
-/

namespace RayCamera

/-! ## Types (`camera.h`, lines 50-70) -/

/-- Vector2 type. -/
structure Vector2 (R : Type) where
  x : R
  y : R

/-- Vector3 type. -/
structure Vector3 (R : Type) where
  x : R
  y : R
  z : R

/-- Camera type, defines a camera position/orientation in 3d space. -/
structure Camera (R : Type) where
  position : Vector3 R
  target : Vector3 R
  up : Vector3 R

/-- The functions of `<math.h>` the module requires (`sqrt` is only used in comments). -/
structure MathH (R : Type) where
  sin : R → R
  cos : R → R

/-! ## Camera modes: `typedef enum { CAMERA_CUSTOM = 0, ... } CameraMode`; the module
stores the mode in an `int` and `SetCameraMode` takes an `int`. -/

def CAMERA_CUSTOM : Int := 0
def CAMERA_FREE : Int := 1
def CAMERA_ORBITAL : Int := 2
def CAMERA_FIRST_PERSON : Int := 3
def CAMERA_THIRD_PERSON : Int := 4

/-! ## Defines (`camera.h`, lines 121-174) -/

section Defines
variable (R : Type) [LinearOrderedField R]

def PI : R := 3.14159265358979323846
def DEG2RAD : R := PI R / 180.0
def CAMERA_SCROLL_SENSITIVITY : R := 1.5
def CAMERA_FREE_MOUSE_SENSITIVITY : R := 0.01
def CAMERA_FREE_DISTANCE_MIN_CLAMP : R := 0.3
def CAMERA_FREE_DISTANCE_MAX_CLAMP : R := 120.0
def CAMERA_FREE_MIN_CLAMP : R := 85.0
def CAMERA_FREE_MAX_CLAMP : R := -85.0
def CAMERA_FREE_SMOOTH_ZOOM_SENSITIVITY : R := 0.05
def CAMERA_FREE_PANNING_DIVIDER : R := 5.1
def CAMERA_ORBITAL_SPEED : R := 0.01
def CAMERA_FIRST_PERSON_FOCUS_DISTANCE : R := 25.0
def CAMERA_FIRST_PERSON_MIN_CLAMP : R := 85.0
def CAMERA_FIRST_PERSON_MAX_CLAMP : R := -85.0
def CAMERA_FIRST_PERSON_STEP_TRIGONOMETRIC_DIVIDER : R := 5.0
def CAMERA_FIRST_PERSON_STEP_DIVIDER : R := 30.0
def CAMERA_FIRST_PERSON_WAVING_DIVIDER : R := 200.0
def CAMERA_FIRST_PERSON_HEIGHT_RELATIVE_EYES_POSITION : R := 0.85
def CAMERA_THIRD_PERSON_DISTANCE_CLAMP : R := 1.2
def CAMERA_THIRD_PERSON_MIN_CLAMP : R := 5.0
def CAMERA_THIRD_PERSON_MAX_CLAMP : R := -85.0
def CAMERA_THIRD_PERSON_OFFSET : Vector3 R := ⟨0.4, 0.0, 0.0⟩
def PLAYER_HEIGHT : R := 0.9
def PLAYER_MOVEMENT_DIVIDER : R := 20.0

end Defines

/-! ## Camera move modes: `typedef enum { MOVE_FRONT = 0, MOVE_LEFT, ... } CameraMove` -/

def MOVE_FRONT : Fin 6 := 0
def MOVE_LEFT : Fin 6 := 1
def MOVE_BACK : Fin 6 := 2
def MOVE_RIGHT : Fin 6 := 3
def MOVE_UP : Fin 6 := 4
def MOVE_DOWN : Fin 6 := 5

/-! ## Global variables (`camera.h`, lines 185-198) -/

/-- The `static` variables of the module. -/
structure CameraState (R : Type) where
  cameraAngle : Vector2 R
  cameraTargetDistance : R
  cameraMousePosition : Vector2 R
  cameraMouseVariation : Vector2 R
  cameraMoveControl : Fin 6 → Int
  cameraPanControlKey : Int
  cameraAltControlKey : Int
  cameraSmoothZoomControlKey : Int
  cameraMoveCounter : Int
  cameraMouseSensitivity : R
  cameraMode : Int

/-- The initial values of the `static` variables
(`'W'`, `'A'`, `'S'`, `'D'`, `'E'`, `'Q'` are 87, 65, 83, 68, 69, 81). -/
def CameraState.initial (R : Type) [LinearOrderedField R] : CameraState R where
  cameraAngle := ⟨0.0, 0.0⟩
  cameraTargetDistance := 5.0
  cameraMousePosition := ⟨0.0, 0.0⟩
  cameraMouseVariation := ⟨0.0, 0.0⟩
  cameraMoveControl := ![87, 65, 83, 68, 69, 81]
  cameraPanControlKey := 2
  cameraAltControlKey := 342
  cameraSmoothZoomControlKey := 341
  cameraMoveCounter := 0
  cameraMouseSensitivity := 0.003
  cameraMode := CAMERA_CUSTOM

/-! ## The host: the raylib input functions the module depends on -/

/-- A state-changing call received by the host. -/
inductive Call (R : Type) where
  | ShowCursor : Call R
  | HideCursor : Call R
  | SetMousePosition (pos : Vector2 R) : Call R

/-- Modelled from the spec: the Input Provider of section 4.1, whose functions
(`GetMousePosition`, `SetMousePosition`, `IsMouseButtonDown`, `GetMouseWheelMove`,
`GetScreenWidth`, `GetScreenHeight`, `ShowCursor`, `HideCursor`, `IsKeyDown`) are only
stubs in `camera.h`. The host holds the latest polled sample; pointer repositioning
takes effect before the next sample is taken; `calls` logs the state-changing calls,
oldest first. -/
structure Host (R : Type) where
  mousePosition : Vector2 R
  mouseWheelMove : Int
  mouseButtonDown : Int → Bool
  keyDown : Int → Bool
  screenWidth : Int
  screenHeight : Int
  calls : List (Call R)

/-- The host of the `CAMERA_STANDALONE` stubs (`camera.h`, lines 206-214): pointer at the
origin, nothing pressed, a 1280x720 screen. -/
def Host.standalone (R : Type) [LinearOrderedField R] : Host R where
  mousePosition := ⟨0.0, 0.0⟩
  mouseWheelMove := 0
  mouseButtonDown := fun _ => false
  keyDown := fun _ => false
  screenWidth := 1280
  screenHeight := 720
  calls := []

section Module
variable {R : Type} [LinearOrderedField R]

def GetMousePosition (h : Host R) : Vector2 R := h.mousePosition

def SetMousePosition (h : Host R) (pos : Vector2 R) : Host R :=
  { h with mousePosition := pos, calls := h.calls ++ [Call.SetMousePosition pos] }

def IsMouseButtonDown (h : Host R) (button : Int) : Bool := h.mouseButtonDown button

def GetMouseWheelMove (h : Host R) : Int := h.mouseWheelMove

def GetScreenWidth (h : Host R) : Int := h.screenWidth

def GetScreenHeight (h : Host R) : Int := h.screenHeight

def ShowCursor (h : Host R) : Host R := { h with calls := h.calls ++ [Call.ShowCursor] }

def HideCursor (h : Host R) : Host R := { h with calls := h.calls ++ [Call.HideCursor] }

def IsKeyDown (h : Host R) (key : Int) : Bool := h.keyDown key

/-! ## Module functions -/

/-- Select camera mode (`camera.h`, lines 223-262). -/
def SetCameraMode (s : CameraState R) (h : Host R) (mode : Int) : CameraState R × Host R :=
  let r : CameraState R × Host R :=
    if s.cameraMode = CAMERA_FIRST_PERSON ∧ mode = CAMERA_FREE then
      ({ s with cameraTargetDistance := 5.0,
                cameraAngle := { s.cameraAngle with y := -40 * DEG2RAD R } }, h)
    else if s.cameraMode = CAMERA_FIRST_PERSON ∧ mode = CAMERA_ORBITAL then
      ({ s with cameraTargetDistance := 5.0,
                cameraAngle := { s.cameraAngle with y := -40 * DEG2RAD R } }, h)
    else if s.cameraMode = CAMERA_CUSTOM ∧ mode = CAMERA_FREE then
      ({ s with cameraTargetDistance := 10.0,
                cameraAngle := ⟨45 * DEG2RAD R, -40 * DEG2RAD R⟩ }, ShowCursor h)
    else if s.cameraMode = CAMERA_CUSTOM ∧ mode = CAMERA_ORBITAL then
      ({ s with cameraAngle := ⟨225 * DEG2RAD R, -40 * DEG2RAD R⟩ }, h)
    else (s, h)
  ({ r.1 with cameraMode := mode }, r.2)

/-- The camera position update shared by the free, orbital and third person cameras
(`camera.h`, lines 397-403, 419-425 and 490-496): the position is recomputed from the
angles, the distance and the target. -/
def cameraPositionUpdate (m : MathH R) (cameraAngle : Vector2 R) (cameraTargetDistance : R)
    (camera : Camera R) : Camera R :=
  let px := m.sin cameraAngle.x * cameraTargetDistance * m.cos cameraAngle.y + camera.target.x
  let py :=
    if cameraAngle.y ≤ 0.0 then
      m.sin cameraAngle.y * cameraTargetDistance * m.sin cameraAngle.y + camera.target.y
    else
      -m.sin cameraAngle.y * cameraTargetDistance * m.sin cameraAngle.y + camera.target.y
  let pz := m.cos cameraAngle.x * cameraTargetDistance * m.cos cameraAngle.y + camera.target.z
  { camera with position := ⟨px, py, pz⟩ }

/-- Mouse movement detection of `UpdateCamera` (`camera.h`, lines 278-309): pointer
confinement outside the free and orbital cameras, accumulation of the mouse variation,
and the second `GetMousePosition()`. `h` is the host on entry. -/
def updateCameraMouse (s : CameraState R) (h : Host R) : CameraState R × Host R :=
  let mousePosition := GetMousePosition h
  let screenWidth := GetScreenWidth h
  let screenHeight := GetScreenHeight h
  let variation : Vector2 R :=
    ⟨mousePosition.x - s.cameraMousePosition.x, mousePosition.y - s.cameraMousePosition.y⟩
  let r : CameraState R × Host R :=
    if s.cameraMode ≠ CAMERA_FREE ∧ s.cameraMode ≠ CAMERA_ORBITAL then
      let h1 := HideCursor h
      if mousePosition.x < ((Int.tdiv screenHeight 3 : Int) : R) then
        (s, SetMousePosition h1
          ⟨((screenWidth - Int.tdiv screenHeight 3 : Int) : R), mousePosition.y⟩)
      else if mousePosition.y < ((Int.tdiv screenHeight 3 : Int) : R) then
        (s, SetMousePosition h1
          ⟨mousePosition.x, ((screenHeight - Int.tdiv screenHeight 3 : Int) : R)⟩)
      else if mousePosition.x > ((screenWidth - Int.tdiv screenHeight 3 : Int) : R) then
        (s, SetMousePosition h1 ⟨((Int.tdiv screenHeight 3 : Int) : R), mousePosition.y⟩)
      else if mousePosition.y > ((screenHeight - Int.tdiv screenHeight 3 : Int) : R) then
        (s, SetMousePosition h1 ⟨mousePosition.x, ((Int.tdiv screenHeight 3 : Int) : R)⟩)
      else
        ({ s with cameraMouseVariation := variation }, h1)
    else
      ({ s with cameraMouseVariation := variation }, ShowCursor h)
  ({ r.1 with cameraMousePosition := GetMousePosition r.2 }, r.2)

/-- The target translation along the view direction used by four of the free camera
zoom branches (`camera.h`, lines 326-328, 332-334, 346-348 and 352-354). -/
def zoomTargetMove (mouseWheelMove : Int) (cameraTargetDistance : R) (camera : Camera R) :
    Camera R :=
  { camera with target :=
      ⟨camera.target.x + (mouseWheelMove : R) * (camera.target.x - camera.position.x)
          * CAMERA_SCROLL_SENSITIVITY R / cameraTargetDistance,
       camera.target.y + (mouseWheelMove : R) * (camera.target.y - camera.position.y)
          * CAMERA_SCROLL_SENSITIVITY R / cameraTargetDistance,
       camera.target.z + (mouseWheelMove : R) * (camera.target.z - camera.position.z)
          * CAMERA_SCROLL_SENSITIVITY R / cameraTargetDistance⟩ }

/-- Camera zoom of the free camera (`camera.h`, lines 316-362). -/
def updateCameraFreeZoom (s : CameraState R) (mouseWheelMove : Int) (camera : Camera R) :
    CameraState R × Camera R :=
  if s.cameraTargetDistance < CAMERA_FREE_DISTANCE_MAX_CLAMP R ∧ mouseWheelMove < 0 then
    let d := s.cameraTargetDistance - (mouseWheelMove : R) * CAMERA_SCROLL_SENSITIVITY R
    ({ s with cameraTargetDistance :=
        if d > CAMERA_FREE_DISTANCE_MAX_CLAMP R then CAMERA_FREE_DISTANCE_MAX_CLAMP R else d },
      camera)
  -- Camera looking down
  else if camera.position.y > camera.target.y
      ∧ s.cameraTargetDistance = CAMERA_FREE_DISTANCE_MAX_CLAMP R ∧ mouseWheelMove < 0 then
    (s, zoomTargetMove mouseWheelMove s.cameraTargetDistance camera)
  else if camera.position.y > camera.target.y ∧ camera.target.y ≥ 0 then
    (s, zoomTargetMove mouseWheelMove s.cameraTargetDistance camera)
  else if camera.position.y > camera.target.y ∧ camera.target.y < 0 ∧ mouseWheelMove > 0 then
    let d := s.cameraTargetDistance - (mouseWheelMove : R) * CAMERA_SCROLL_SENSITIVITY R
    ({ s with cameraTargetDistance :=
        if d < CAMERA_FREE_DISTANCE_MIN_CLAMP R then CAMERA_FREE_DISTANCE_MIN_CLAMP R else d },
      camera)
  -- Camera looking up
  else if camera.position.y < camera.target.y
      ∧ s.cameraTargetDistance = CAMERA_FREE_DISTANCE_MAX_CLAMP R ∧ mouseWheelMove < 0 then
    (s, zoomTargetMove mouseWheelMove s.cameraTargetDistance camera)
  else if camera.position.y < camera.target.y ∧ camera.target.y ≤ 0 then
    (s, zoomTargetMove mouseWheelMove s.cameraTargetDistance camera)
  else if camera.position.y < camera.target.y ∧ camera.target.y > 0 ∧ mouseWheelMove > 0 then
    let d := s.cameraTargetDistance - (mouseWheelMove : R) * CAMERA_SCROLL_SENSITIVITY R
    ({ s with cameraTargetDistance :=
        if d < CAMERA_FREE_DISTANCE_MIN_CLAMP R then CAMERA_FREE_DISTANCE_MIN_CLAMP R else d },
      camera)
  else (s, camera)

/-- Inputs of the free camera (`camera.h`, lines 364-391): smooth zoom, orientation and
panning; `panKey` is the sampled state of the pan button. -/
def updateCameraFreeInputs (m : MathH R) (s : CameraState R) (h : Host R) (panKey : Bool)
    (camera : Camera R) : CameraState R × Camera R :=
  if IsKeyDown h s.cameraAltControlKey then
    if IsKeyDown h s.cameraSmoothZoomControlKey then
      -- Camera smooth zoom
      if panKey then
        ({ s with cameraTargetDistance := s.cameraTargetDistance
            + s.cameraMouseVariation.y * CAMERA_FREE_SMOOTH_ZOOM_SENSITIVITY R }, camera)
      else (s, camera)
    -- Camera orientation calculation
    else if panKey then
      let ax := s.cameraAngle.x + s.cameraMouseVariation.x * -CAMERA_FREE_MOUSE_SENSITIVITY R
      let ay := s.cameraAngle.y + s.cameraMouseVariation.y * -CAMERA_FREE_MOUSE_SENSITIVITY R
      -- Angle clamp
      let ay1 :=
        if ay > CAMERA_FREE_MIN_CLAMP R * DEG2RAD R then CAMERA_FREE_MIN_CLAMP R * DEG2RAD R
        else if ay < CAMERA_FREE_MAX_CLAMP R * DEG2RAD R then CAMERA_FREE_MAX_CLAMP R * DEG2RAD R
        else ay
      ({ s with cameraAngle := ⟨ax, ay1⟩ }, camera)
    else (s, camera)
  -- Paning
  else if panKey then
    let vx := s.cameraMouseVariation.x
    let vy := s.cameraMouseVariation.y
    let k := s.cameraTargetDistance / CAMERA_FREE_PANNING_DIVIDER R
    (s, { camera with target :=
      ⟨camera.target.x + ((vx * -CAMERA_FREE_MOUSE_SENSITIVITY R) * m.cos s.cameraAngle.x
          + (vy * CAMERA_FREE_MOUSE_SENSITIVITY R) * m.sin s.cameraAngle.x
            * m.sin s.cameraAngle.y) * k,
       camera.target.y + ((vy * CAMERA_FREE_MOUSE_SENSITIVITY R) * m.cos s.cameraAngle.y) * k,
       camera.target.z + ((vx * CAMERA_FREE_MOUSE_SENSITIVITY R) * m.sin s.cameraAngle.x
          + (vy * CAMERA_FREE_MOUSE_SENSITIVITY R) * m.cos s.cameraAngle.x
            * m.sin s.cameraAngle.y) * k⟩ })
  else (s, camera)

/-- Focus to center (`camera.h`, lines 395 and 417); `'Z'` is 90. -/
def focusToCenter (h : Host R) (camera : Camera R) : Camera R :=
  if IsKeyDown h 90 then { camera with target := ⟨0.0, 0.0, 0.0⟩ } else camera

/-- The `CAMERA_FREE` case of `UpdateCamera` (`camera.h`, lines 314-405). -/
def updateCameraFree (m : MathH R) (s : CameraState R) (h : Host R) (mouseWheelMove : Int)
    (panKey : Bool) (camera : Camera R) : CameraState R × Camera R :=
  let r1 := updateCameraFreeZoom s mouseWheelMove camera
  let r2 := updateCameraFreeInputs m r1.1 h panKey r1.2
  let camera2 := focusToCenter h r2.2
  (r2.1, cameraPositionUpdate m r2.1.cameraAngle r2.1.cameraTargetDistance camera2)

/-- The `CAMERA_ORBITAL` case of `UpdateCamera` (`camera.h`, lines 406-427). -/
def updateCameraOrbital (m : MathH R) (s : CameraState R) (h : Host R) (mouseWheelMove : Int)
    (camera : Camera R) : CameraState R × Camera R :=
  let angle : Vector2 R := { s.cameraAngle with x := s.cameraAngle.x + CAMERA_ORBITAL_SPEED R }
  -- Camera zoom
  let d := s.cameraTargetDistance - (mouseWheelMove : R) * CAMERA_SCROLL_SENSITIVITY R
  -- Camera distance clamp
  let d1 :=
    if d < CAMERA_THIRD_PERSON_DISTANCE_CLAMP R then CAMERA_THIRD_PERSON_DISTANCE_CLAMP R else d
  let camera1 := focusToCenter h camera
  ({ s with cameraAngle := angle, cameraTargetDistance := d1 },
    cameraPositionUpdate m angle d1 camera1)

/-- Keyboard inputs of the first and third person cameras (`camera.h`, lines 431-467):
returns the translated camera and `isMoving`. -/
def updateCameraKeys (m : MathH R) (s : CameraState R) (h : Host R) (camera : Camera R) :
    Camera R × Bool :=
  let p0 := camera.position
  let r1 : Vector3 R × Bool :=
    if IsKeyDown h (s.cameraMoveControl MOVE_FRONT) then
      (⟨p0.x - m.sin s.cameraAngle.x / PLAYER_MOVEMENT_DIVIDER R,
        p0.y + m.sin s.cameraAngle.y / PLAYER_MOVEMENT_DIVIDER R,
        p0.z - m.cos s.cameraAngle.x / PLAYER_MOVEMENT_DIVIDER R⟩, true)
    else if IsKeyDown h (s.cameraMoveControl MOVE_BACK) then
      (⟨p0.x + m.sin s.cameraAngle.x / PLAYER_MOVEMENT_DIVIDER R,
        p0.y - m.sin s.cameraAngle.y / PLAYER_MOVEMENT_DIVIDER R,
        p0.z + m.cos s.cameraAngle.x / PLAYER_MOVEMENT_DIVIDER R⟩, true)
    else (p0, false)
  let p1 := r1.1
  let r2 : Vector3 R × Bool :=
    if IsKeyDown h (s.cameraMoveControl MOVE_LEFT) then
      (⟨p1.x - m.cos s.cameraAngle.x / PLAYER_MOVEMENT_DIVIDER R, p1.y,
        p1.z + m.sin s.cameraAngle.x / PLAYER_MOVEMENT_DIVIDER R⟩, true)
    else if IsKeyDown h (s.cameraMoveControl MOVE_RIGHT) then
      (⟨p1.x + m.cos s.cameraAngle.x / PLAYER_MOVEMENT_DIVIDER R, p1.y,
        p1.z - m.sin s.cameraAngle.x / PLAYER_MOVEMENT_DIVIDER R⟩, true)
    else (p1, r1.2)
  let p2 := r2.1
  let p3 : Vector3 R :=
    if IsKeyDown h (s.cameraMoveControl MOVE_UP) then
      { p2 with y := p2.y + 1.0 / PLAYER_MOVEMENT_DIVIDER R }
    else if IsKeyDown h (s.cameraMoveControl MOVE_DOWN) then
      { p2 with y := p2.y - 1.0 / PLAYER_MOVEMENT_DIVIDER R }
    else p2
  ({ camera with position := p3 }, r2.2)

/-- The `CAMERA_THIRD_PERSON` branch (`camera.h`, lines 469-497), after the keyboard
inputs. -/
def updateCameraThirdPerson (m : MathH R) (s : CameraState R) (mouseWheelMove : Int)
    (camera : Camera R) : CameraState R × Camera R :=
  -- Camera orientation calculation
  let ax := s.cameraAngle.x + s.cameraMouseVariation.x * -s.cameraMouseSensitivity
  let ay := s.cameraAngle.y + s.cameraMouseVariation.y * -s.cameraMouseSensitivity
  -- Angle clamp
  let ay1 :=
    if ay > CAMERA_THIRD_PERSON_MIN_CLAMP R * DEG2RAD R then
      CAMERA_THIRD_PERSON_MIN_CLAMP R * DEG2RAD R
    else if ay < CAMERA_THIRD_PERSON_MAX_CLAMP R * DEG2RAD R then
      CAMERA_THIRD_PERSON_MAX_CLAMP R * DEG2RAD R
    else ay
  -- Camera zoom
  let d := s.cameraTargetDistance - (mouseWheelMove : R) * CAMERA_SCROLL_SENSITIVITY R
  -- Camera distance clamp
  let d1 :=
    if d < CAMERA_THIRD_PERSON_DISTANCE_CLAMP R then CAMERA_THIRD_PERSON_DISTANCE_CLAMP R else d
  -- Camera is always looking at player
  let target : Vector3 R :=
    ⟨camera.position.x + (CAMERA_THIRD_PERSON_OFFSET R).x * m.cos ax
        + (CAMERA_THIRD_PERSON_OFFSET R).z * m.sin ax,
     camera.position.y + PLAYER_HEIGHT R * CAMERA_FIRST_PERSON_HEIGHT_RELATIVE_EYES_POSITION R
        + (CAMERA_THIRD_PERSON_OFFSET R).y,
     camera.position.z + (CAMERA_THIRD_PERSON_OFFSET R).z * m.sin ax
        - (CAMERA_THIRD_PERSON_OFFSET R).x * m.sin ax⟩
  ({ s with cameraAngle := ⟨ax, ay1⟩, cameraTargetDistance := d1 },
    cameraPositionUpdate m ⟨ax, ay1⟩ d1 { camera with target := target })

/-- The `CAMERA_FIRST_PERSON` branch (`camera.h`, lines 498-524), after the keyboard
inputs. -/
def updateCameraFirstPerson (m : MathH R) (s : CameraState R) (isMoving : Bool)
    (camera : Camera R) : CameraState R × Camera R :=
  let counter : Int := if isMoving then s.cameraMoveCounter + 1 else s.cameraMoveCounter
  -- Camera orientation calculation
  let ax := s.cameraAngle.x + s.cameraMouseVariation.x * -s.cameraMouseSensitivity
  let ay := s.cameraAngle.y + s.cameraMouseVariation.y * -s.cameraMouseSensitivity
  -- Angle clamp
  let ay1 :=
    if ay > CAMERA_FIRST_PERSON_MIN_CLAMP R * DEG2RAD R then
      CAMERA_FIRST_PERSON_MIN_CLAMP R * DEG2RAD R
    else if ay < CAMERA_FIRST_PERSON_MAX_CLAMP R * DEG2RAD R then
      CAMERA_FIRST_PERSON_MAX_CLAMP R * DEG2RAD R
    else ay
  -- Camera is always looking at player
  let target : Vector3 R :=
    ⟨camera.position.x - m.sin ax * CAMERA_FIRST_PERSON_FOCUS_DISTANCE R,
     camera.position.y + m.sin ay1 * CAMERA_FIRST_PERSON_FOCUS_DISTANCE R,
     camera.position.z - m.cos ax * CAMERA_FIRST_PERSON_FOCUS_DISTANCE R⟩
  -- Camera position update
  let position : Vector3 R :=
    { camera.position with
      y := camera.position.y
        - m.sin ((counter : R) / CAMERA_FIRST_PERSON_STEP_TRIGONOMETRIC_DIVIDER R)
          / CAMERA_FIRST_PERSON_STEP_DIVIDER R }
  let up : Vector3 R :=
    ⟨m.sin ((counter : R) / (CAMERA_FIRST_PERSON_STEP_TRIGONOMETRIC_DIVIDER R * 2))
        / CAMERA_FIRST_PERSON_WAVING_DIVIDER R,
     camera.up.y,
     -m.sin ((counter : R) / (CAMERA_FIRST_PERSON_STEP_TRIGONOMETRIC_DIVIDER R * 2))
        / CAMERA_FIRST_PERSON_WAVING_DIVIDER R⟩
  ({ s with cameraMoveCounter := counter, cameraAngle := ⟨ax, ay1⟩ },
    { position := position, target := target, up := up })

/-- Update camera depending on selected mode (`camera.h`, lines 269-528). The result is
the module state, the host (with the calls it received) and the camera after the call. -/
def UpdateCamera (m : MathH R) (s : CameraState R) (h : Host R) (camera : Camera R) :
    CameraState R × Host R × Camera R :=
  -- Mouse movement detection
  let mouseWheelMove := GetMouseWheelMove h
  let panKey := IsMouseButtonDown h s.cameraPanControlKey
  let r := updateCameraMouse s h
  let s1 := r.1
  let h1 := r.2
  -- Support for multiple automatic camera modes
  if s1.cameraMode = CAMERA_FREE then
    let q := updateCameraFree m s1 h1 mouseWheelMove panKey camera
    (q.1, h1, q.2)
  else if s1.cameraMode = CAMERA_ORBITAL then
    let q := updateCameraOrbital m s1 h1 mouseWheelMove camera
    (q.1, h1, q.2)
  else if s1.cameraMode = CAMERA_FIRST_PERSON ∨ s1.cameraMode = CAMERA_THIRD_PERSON then
    let k := updateCameraKeys m s1 h1 camera
    if s1.cameraMode = CAMERA_THIRD_PERSON then
      let q := updateCameraThirdPerson m s1 mouseWheelMove k.1
      (q.1, h1, q.2)
    else
      let q := updateCameraFirstPerson m s1 k.2 k.1
      (q.1, h1, q.2)
  else (s1, h1, camera)

/-- Set camera pan key to combine with mouse movement (free camera). -/
def SetCameraPanControl (s : CameraState R) (panKey : Int) : CameraState R :=
  { s with cameraPanControlKey := panKey }

/-- Set camera alt key to combine with mouse movement (free camera). -/
def SetCameraAltControl (s : CameraState R) (altKey : Int) : CameraState R :=
  { s with cameraAltControlKey := altKey }

/-- Set camera smooth zoom key to combine with mouse (free camera). -/
def SetCameraSmoothZoomControl (s : CameraState R) (szKey : Int) : CameraState R :=
  { s with cameraSmoothZoomControlKey := szKey }

/-- Set camera move controls (1st person and 3rd person cameras):
six assignments to the slots of `cameraMoveControl` (`camera.h`, lines 580-588). -/
def SetCameraMoveControls (s : CameraState R) (frontKey backKey leftKey rightKey upKey
    downKey : Int) : CameraState R :=
  let c1 := Function.update s.cameraMoveControl MOVE_FRONT frontKey
  let c2 := Function.update c1 MOVE_LEFT leftKey
  let c3 := Function.update c2 MOVE_BACK backKey
  let c4 := Function.update c3 MOVE_RIGHT rightKey
  let c5 := Function.update c4 MOVE_UP upKey
  let c6 := Function.update c5 MOVE_DOWN downKey
  { s with cameraMoveControl := c6 }

/-- Set camera mouse sensitivity (1st person and 3rd person cameras). -/
def SetCameraMouseSensitivity (s : CameraState R) (sensitivity : R) : CameraState R :=
  { s with cameraMouseSensitivity := sensitivity / 10000.0 }

/-- The condition under which the mouse stage of `UpdateCamera` repositions the pointer
instead of accumulating the mouse variation (`camera.h`, lines 285-292): the mode is
neither free nor orbital and one of the four edge guards holds. -/
def repositions (s : CameraState R) (h : Host R) : Prop :=
  (s.cameraMode ≠ CAMERA_FREE ∧ s.cameraMode ≠ CAMERA_ORBITAL)
    ∧ ((GetMousePosition h).x < ((Int.tdiv (GetScreenHeight h) 3 : Int) : R)
      ∨ (GetMousePosition h).y < ((Int.tdiv (GetScreenHeight h) 3 : Int) : R)
      ∨ (GetMousePosition h).x
          > ((GetScreenWidth h - Int.tdiv (GetScreenHeight h) 3 : Int) : R)
      ∨ (GetMousePosition h).y
          > ((GetScreenHeight h - Int.tdiv (GetScreenHeight h) 3 : Int) : R))

instance (s : CameraState R) (h : Host R) : Decidable (repositions s h) := by
  unfold repositions
  infer_instance

/-- Consecutive frames: `UpdateCamera` is called once per frame, each frame on the host
state sampled for that frame; the module state and the camera are carried from one call
to the next. -/
def updateCameraFrames (m : MathH R) :
    List (Host R) → CameraState R × Camera R → CameraState R × Camera R
  | [], sc => sc
  | h :: hs, sc =>
    updateCameraFrames m hs ((UpdateCamera m sc.1 h sc.2).1, (UpdateCamera m sc.1 h sc.2).2.2)

end Module

/-! ## Scenarios: concrete states, hosts and cameras -/

section Scenarios
variable (R : Type) [LinearOrderedField R]

/-- A camera at (0, 0, 0) looking at the origin, up vector (0, 1, 0). -/
def originCamera : Camera R := ⟨⟨0, 0, 0⟩, ⟨0, 0, 0⟩, ⟨0, 1, 0⟩⟩

/-- A camera at (0, 10, 10) looking at the origin, up vector (0, 1, 0). -/
def viewCamera : Camera R := ⟨⟨0, 10, 10⟩, ⟨0, 0, 0⟩, ⟨0, 1, 0⟩⟩

/-- The initial module state in the given mode, with the pointer last seen at the centre
(640, 360) of the 1280x720 screen. -/
def centredState (mode : Int) : CameraState R :=
  { CameraState.initial R with cameraMode := mode, cameraMousePosition := ⟨640, 360⟩ }

/-- The 1280x720 host with the pointer at rest at the screen centre, no wheel motion, no
button and no key down. -/
def restingHost : Host R := { Host.standalone R with mousePosition := ⟨640, 360⟩ }

/-- The resting host with the key `'W'` (87, the default `MOVE_FRONT` key) down. -/
def walkingHost : Host R := { restingHost R with keyDown := fun key => decide (key = 87) }

/-- The 1280x720 host with the pointer at (640, 160), the middle mouse button (2) down and
the left alt (342) and left control (341) keys down: a smooth zoom drag. -/
def smoothZoomHost : Host R :=
  { Host.standalone R with
    mousePosition := ⟨640, 160⟩
    mouseButtonDown := fun button => decide (button = 2)
    keyDown := fun key => decide (key = 342 ∨ key = 341) }

/-- The module state after `SetCameraMode(CAMERA_FREE)` on the initial state: free mode,
angles (45·PI/180, −40·PI/180), target distance 10.0. -/
def freeState : CameraState R :=
  (SetCameraMode (CameraState.initial R) (Host.standalone R) CAMERA_FREE).1

/-- The 1280x720 host with the pointer at (x, y) and the middle mouse button (2) down, no
key down and no wheel motion: a pan drag. -/
def panHost (x y : R) : Host R :=
  { Host.standalone R with
    mousePosition := ⟨x, y⟩
    mouseButtonDown := fun button => decide (button = 2) }

/-- The 1280x720 host with the pointer at (x, y), nothing pressed and no wheel motion. -/
def pointerHost (x y : R) : Host R := { Host.standalone R with mousePosition := ⟨x, y⟩ }

/-- The resting host with a wheel delta of `w`. -/
def wheelHost (w : Int) : Host R := { restingHost R with mouseWheelMove := w }

end Scenarios

/-! ## Mode transitions -/

section SetMode
variable {R : Type} [LinearOrderedField R]

/-- C1: from a state whose mode is `CAMERA_CUSTOM`, `SetCameraMode(CAMERA_FREE)` sets the
target distance to 10.0, `cameraAngle.x` to 45·PI/180, `cameraAngle.y` to −40·PI/180 and
the mode to `CAMERA_FREE`, and issues exactly one call to the host, `ShowCursor()`. -/
theorem setCameraMode_custom_free (s : CameraState R) (h : Host R)
    (hm : s.cameraMode = CAMERA_CUSTOM) :
    (SetCameraMode s h CAMERA_FREE).1.cameraTargetDistance = 10
      ∧ (SetCameraMode s h CAMERA_FREE).1.cameraAngle.x = 45 * PI R / 180
      ∧ (SetCameraMode s h CAMERA_FREE).1.cameraAngle.y = -40 * PI R / 180
      ∧ (SetCameraMode s h CAMERA_FREE).1.cameraMode = CAMERA_FREE
      ∧ (SetCameraMode s h CAMERA_FREE).2.calls = h.calls ++ [Call.ShowCursor] := by
  have h1 : ¬ (CAMERA_CUSTOM = CAMERA_FIRST_PERSON) := by decide
  refine ⟨?_, ?_, ?_, ?_, ?_⟩ <;>
    simp only [SetCameraMode, hm, h1, false_and, true_and, if_true, if_false, ShowCursor, DEG2RAD]
  · norm_num
  · ring
  · ring

/-- The scenario of C1 on the initial state (distance 5.0, angle (0,0)). -/
theorem setCameraMode_custom_free_witness :
    (CameraState.initial ℚ).cameraMode = CAMERA_CUSTOM
      ∧ (SetCameraMode (CameraState.initial ℚ) (Host.standalone ℚ) CAMERA_FREE).1.cameraTargetDistance
          = 10
      ∧ (SetCameraMode (CameraState.initial ℚ) (Host.standalone ℚ) CAMERA_FREE).2.calls
          = [Call.ShowCursor] :=
  have w := setCameraMode_custom_free (CameraState.initial ℚ) (Host.standalone ℚ) rfl
  ⟨rfl, w.1, w.2.2.2.2⟩

/-- C2: from a state whose mode is `CAMERA_FIRST_PERSON`, `SetCameraMode(mode)` with `mode`
`CAMERA_FREE` or `CAMERA_ORBITAL` sets the target distance to 5.0, `cameraAngle.y` to
−40·PI/180 and the mode to `mode`, and leaves `cameraAngle.x` unchanged. -/
theorem setCameraMode_firstPerson_free_orbital (s : CameraState R) (h : Host R) (mode : Int)
    (hm : s.cameraMode = CAMERA_FIRST_PERSON)
    (hn : mode = CAMERA_FREE ∨ mode = CAMERA_ORBITAL) :
    (SetCameraMode s h mode).1.cameraTargetDistance = 5
      ∧ (SetCameraMode s h mode).1.cameraAngle.y = -40 * PI R / 180
      ∧ (SetCameraMode s h mode).1.cameraMode = mode
      ∧ (SetCameraMode s h mode).1.cameraAngle.x = s.cameraAngle.x := by
  rcases hn with hn | hn
  · subst hn
    refine ⟨?_, ?_, ?_, ?_⟩ <;> simp only [SetCameraMode, hm, and_self, if_true, DEG2RAD]
    · norm_num
    · ring
  · subst hn
    have h1 : ¬ (CAMERA_ORBITAL = CAMERA_FREE) := by decide
    refine ⟨?_, ?_, ?_, ?_⟩ <;>
      simp only [SetCameraMode, hm, h1, and_false, and_self, if_true, if_false, DEG2RAD]
    · norm_num
    · ring

/-- C2 on the initial state put in first person mode, switched to the orbital camera. -/
theorem setCameraMode_firstPerson_free_orbital_witness :
    (SetCameraMode { CameraState.initial ℚ with cameraMode := CAMERA_FIRST_PERSON }
        (Host.standalone ℚ) CAMERA_ORBITAL).1.cameraTargetDistance = 5
      ∧ (SetCameraMode { CameraState.initial ℚ with cameraMode := CAMERA_FIRST_PERSON }
        (Host.standalone ℚ) CAMERA_ORBITAL).1.cameraMode = CAMERA_ORBITAL :=
  have w := setCameraMode_firstPerson_free_orbital
    { CameraState.initial ℚ with cameraMode := CAMERA_FIRST_PERSON } (Host.standalone ℚ)
    CAMERA_ORBITAL rfl (Or.inr rfl)
  ⟨w.1, w.2.2.1⟩

/-- C3: from a state whose mode is `CAMERA_CUSTOM`, `SetCameraMode(CAMERA_ORBITAL)` sets
`cameraAngle.x` to 225·PI/180, `cameraAngle.y` to −40·PI/180 and the mode to
`CAMERA_ORBITAL`, and leaves the target distance unchanged. -/
theorem setCameraMode_custom_orbital (s : CameraState R) (h : Host R)
    (hm : s.cameraMode = CAMERA_CUSTOM) :
    (SetCameraMode s h CAMERA_ORBITAL).1.cameraAngle.x = 225 * PI R / 180
      ∧ (SetCameraMode s h CAMERA_ORBITAL).1.cameraAngle.y = -40 * PI R / 180
      ∧ (SetCameraMode s h CAMERA_ORBITAL).1.cameraMode = CAMERA_ORBITAL
      ∧ (SetCameraMode s h CAMERA_ORBITAL).1.cameraTargetDistance = s.cameraTargetDistance := by
  have h1 : ¬ (CAMERA_CUSTOM = CAMERA_FIRST_PERSON) := by decide
  have h2 : ¬ (CAMERA_ORBITAL = CAMERA_FREE) := by decide
  refine ⟨?_, ?_, ?_, ?_⟩ <;>
    simp only [SetCameraMode, hm, h1, h2, false_and, and_false, and_self, if_true, if_false,
      DEG2RAD]
  · ring
  · ring

/-- C3 on the initial state: the distance stays 5.0. -/
theorem setCameraMode_custom_orbital_witness :
    (SetCameraMode (CameraState.initial ℚ) (Host.standalone ℚ) CAMERA_ORBITAL).1.cameraMode
        = CAMERA_ORBITAL
      ∧ (SetCameraMode (CameraState.initial ℚ) (Host.standalone ℚ)
          CAMERA_ORBITAL).1.cameraTargetDistance = (CameraState.initial ℚ).cameraTargetDistance :=
  have w := setCameraMode_custom_orbital (CameraState.initial ℚ) (Host.standalone ℚ) rfl
  ⟨w.2.2.1, w.2.2.2⟩

/-- C4: for every pair of modes other than first person → free, first person → orbital,
custom → free and custom → orbital, `SetCameraMode` changes only the mode (the state is
the old one with the new mode, and the host, hence its call log, is untouched); and for
every pair of modes it leaves the mouse variation, the mouse position, the move counter,
the mouse sensitivity and all the key bindings unchanged. -/
theorem setCameraMode_frame (s : CameraState R) (h : Host R) (mode : Int) :
    ((¬ (s.cameraMode = CAMERA_FIRST_PERSON ∧ mode = CAMERA_FREE)
        ∧ ¬ (s.cameraMode = CAMERA_FIRST_PERSON ∧ mode = CAMERA_ORBITAL)
        ∧ ¬ (s.cameraMode = CAMERA_CUSTOM ∧ mode = CAMERA_FREE)
        ∧ ¬ (s.cameraMode = CAMERA_CUSTOM ∧ mode = CAMERA_ORBITAL)) →
      SetCameraMode s h mode = ({ s with cameraMode := mode }, h))
    ∧ (SetCameraMode s h mode).1.cameraMouseVariation = s.cameraMouseVariation
    ∧ (SetCameraMode s h mode).1.cameraMousePosition = s.cameraMousePosition
    ∧ (SetCameraMode s h mode).1.cameraMoveCounter = s.cameraMoveCounter
    ∧ (SetCameraMode s h mode).1.cameraMouseSensitivity = s.cameraMouseSensitivity
    ∧ (SetCameraMode s h mode).1.cameraMoveControl = s.cameraMoveControl
    ∧ (SetCameraMode s h mode).1.cameraPanControlKey = s.cameraPanControlKey
    ∧ (SetCameraMode s h mode).1.cameraAltControlKey = s.cameraAltControlKey
    ∧ (SetCameraMode s h mode).1.cameraSmoothZoomControlKey = s.cameraSmoothZoomControlKey := by
  refine ⟨?_, ?_⟩
  · rintro ⟨h1, h2, h3, h4⟩
    simp only [SetCameraMode, h1, h2, h3, h4, if_false]
  · unfold SetCameraMode
    split_ifs <;> simp

/-- C4 on the transition free → third person of a state with non-default angles. -/
theorem setCameraMode_frame_witness :
    SetCameraMode { CameraState.initial ℚ with cameraMode := CAMERA_FREE, cameraAngle := ⟨1, 2⟩ }
        (Host.standalone ℚ) CAMERA_THIRD_PERSON
      = ({ CameraState.initial ℚ with cameraMode := CAMERA_THIRD_PERSON, cameraAngle := ⟨1, 2⟩ },
          Host.standalone ℚ) :=
  (setCameraMode_frame
    { CameraState.initial ℚ with cameraMode := CAMERA_FREE, cameraAngle := ⟨1, 2⟩ }
    (Host.standalone ℚ) CAMERA_THIRD_PERSON).1 (by decide)

end SetMode

/-! ## What the mouse stage leaves alone -/

section MouseStage
variable {R : Type} [LinearOrderedField R]

theorem updateCameraMouse_cameraMode (s : CameraState R) (h : Host R) :
    (updateCameraMouse s h).1.cameraMode = s.cameraMode := by
  unfold updateCameraMouse
  simp only
  split_ifs <;> rfl

theorem updateCameraMouse_cameraAngle (s : CameraState R) (h : Host R) :
    (updateCameraMouse s h).1.cameraAngle = s.cameraAngle := by
  unfold updateCameraMouse
  simp only
  split_ifs <;> rfl

theorem updateCameraMouse_cameraTargetDistance (s : CameraState R) (h : Host R) :
    (updateCameraMouse s h).1.cameraTargetDistance = s.cameraTargetDistance := by
  unfold updateCameraMouse
  simp only
  split_ifs <;> rfl

theorem updateCameraMouse_cameraMoveCounter (s : CameraState R) (h : Host R) :
    (updateCameraMouse s h).1.cameraMoveCounter = s.cameraMoveCounter := by
  unfold updateCameraMouse
  simp only
  split_ifs <;> rfl

end MouseStage

/-! ## Distance and pitch clamps -/

section Clamps
variable {R : Type} [LinearOrderedField R]

theorem DEG2RAD_pos : (0 : R) < DEG2RAD R := by
  unfold DEG2RAD PI
  norm_num

/-- C5: after an `UpdateCamera` in orbital or in third person mode the target distance is
at least 1.2, whatever the state, the camera and the input sample on entry. -/
theorem updateCamera_distance_min (m : MathH R) (s : CameraState R) (h : Host R)
    (camera : Camera R)
    (hm : s.cameraMode = CAMERA_ORBITAL ∨ s.cameraMode = CAMERA_THIRD_PERSON) :
    (1.2 : R) ≤ (UpdateCamera m s h camera).1.cameraTargetDistance := by
  have e := updateCameraMouse_cameraMode s h
  have h1 : ¬ (CAMERA_ORBITAL = CAMERA_FREE) := by decide
  have h2 : ¬ (CAMERA_THIRD_PERSON = CAMERA_FREE) := by decide
  have h3 : ¬ (CAMERA_THIRD_PERSON = CAMERA_ORBITAL) := by decide
  rcases hm with hm | hm
  · simp only [UpdateCamera, e, hm, h1, if_true, if_false, updateCameraOrbital,
      CAMERA_THIRD_PERSON_DISTANCE_CLAMP]
    split_ifs with hd
    · exact le_refl _
    · exact not_lt.mp hd
  · simp only [UpdateCamera, e, hm, h2, h3, or_true, if_true, if_false, updateCameraThirdPerson,
      CAMERA_THIRD_PERSON_DISTANCE_CLAMP]
    split_ifs with hd
    · exact le_refl _
    · exact not_lt.mp hd

/-- C5 on the initial state put in orbital mode, with the pointer at rest. -/
theorem updateCamera_distance_min_witness :
    (1.2 : ℚ) ≤ (UpdateCamera ⟨fun _ => 0, fun _ => 1⟩
      { CameraState.initial ℚ with cameraMode := CAMERA_ORBITAL } (Host.standalone ℚ)
      (viewCamera ℚ)).1.cameraTargetDistance :=
  updateCamera_distance_min _ _ _ _ (Or.inl rfl)

theorem updateCameraFreeZoom_cameraAngle (s : CameraState R) (w : Int) (camera : Camera R) :
    (updateCameraFreeZoom s w camera).1.cameraAngle = s.cameraAngle := by
  unfold updateCameraFreeZoom
  split_ifs <;> rfl

/-- The two-sided clamp written `if a > hi then hi else if a < lo then lo else a` lands in
`[lo, hi]` as soon as `lo ≤ hi`. -/
theorem angleClamp_mem {lo hi : R} (hlh : lo ≤ hi) (a : R) :
    lo ≤ (if a > hi then hi else if a < lo then lo else a)
      ∧ (if a > hi then hi else if a < lo then lo else a) ≤ hi := by
  split_ifs with h1 h2
  · exact ⟨hlh, le_refl _⟩
  · exact ⟨le_refl _, hlh⟩
  · exact ⟨not_lt.mp h2, not_lt.mp h1⟩

theorem updateCameraFreeInputs_pitch (m : MathH R) (s : CameraState R) (h : Host R)
    (panKey : Bool) (camera : Camera R)
    (hr : -85.0 * DEG2RAD R ≤ s.cameraAngle.y ∧ s.cameraAngle.y ≤ 85.0 * DEG2RAD R) :
    -85.0 * DEG2RAD R ≤ (updateCameraFreeInputs m s h panKey camera).1.cameraAngle.y
      ∧ (updateCameraFreeInputs m s h panKey camera).1.cameraAngle.y ≤ 85.0 * DEG2RAD R := by
  have hd : (0 : R) < DEG2RAD R := DEG2RAD_pos
  simp only [updateCameraFreeInputs, CAMERA_FREE_MIN_CLAMP, CAMERA_FREE_MAX_CLAMP]
  split_ifs <;> constructor <;> linarith [hr.1, hr.2]

/-- C7: the pitch angle stays in its mode's clamp range: after an `UpdateCamera` in third
person mode `cameraAngle.y` is in [−85·PI/180, 5·PI/180]; after one in first person mode
it is in [−85·PI/180, 85·PI/180]; after one in free mode it is in [−85·PI/180, 85·PI/180]
whenever it was in that range on entry. -/
theorem updateCamera_pitch_range (m : MathH R) (s : CameraState R) (h : Host R)
    (camera : Camera R) :
    (s.cameraMode = CAMERA_THIRD_PERSON →
        -85 * PI R / 180 ≤ (UpdateCamera m s h camera).1.cameraAngle.y
          ∧ (UpdateCamera m s h camera).1.cameraAngle.y ≤ 5 * PI R / 180)
    ∧ (s.cameraMode = CAMERA_FIRST_PERSON →
        -85 * PI R / 180 ≤ (UpdateCamera m s h camera).1.cameraAngle.y
          ∧ (UpdateCamera m s h camera).1.cameraAngle.y ≤ 85 * PI R / 180)
    ∧ (s.cameraMode = CAMERA_FREE →
        (-85 * PI R / 180 ≤ s.cameraAngle.y ∧ s.cameraAngle.y ≤ 85 * PI R / 180) →
        -85 * PI R / 180 ≤ (UpdateCamera m s h camera).1.cameraAngle.y
          ∧ (UpdateCamera m s h camera).1.cameraAngle.y ≤ 85 * PI R / 180) := by
  have e := updateCameraMouse_cameraMode s h
  have ea := updateCameraMouse_cameraAngle s h
  have hd : (0 : R) < DEG2RAD R := DEG2RAD_pos
  have e1 : -85 * PI R / 180 = -85.0 * DEG2RAD R := by unfold DEG2RAD; ring
  have e2 : 5 * PI R / 180 = 5.0 * DEG2RAD R := by unfold DEG2RAD; ring
  have e3 : 85 * PI R / 180 = 85.0 * DEG2RAD R := by unfold DEG2RAD; ring
  have h1 : ¬ (CAMERA_THIRD_PERSON = CAMERA_FREE) := by decide
  have h2 : ¬ (CAMERA_THIRD_PERSON = CAMERA_ORBITAL) := by decide
  have h3 : ¬ (CAMERA_FIRST_PERSON = CAMERA_FREE) := by decide
  have h4 : ¬ (CAMERA_FIRST_PERSON = CAMERA_ORBITAL) := by decide
  have h5 : ¬ (CAMERA_FIRST_PERSON = CAMERA_THIRD_PERSON) := by decide
  refine ⟨fun hm => ?_, fun hm => ?_, fun hm hr => ?_⟩
  · rw [e1, e2]
    simp only [UpdateCamera, e, hm, h1, h2, or_true, if_true, if_false, updateCameraThirdPerson,
      CAMERA_THIRD_PERSON_MIN_CLAMP, CAMERA_THIRD_PERSON_MAX_CLAMP]
    exact angleClamp_mem (by nlinarith) _
  · rw [e1, e3]
    simp only [UpdateCamera, e, hm, h3, h4, h5, true_or, if_true, if_false,
      updateCameraFirstPerson, CAMERA_FIRST_PERSON_MIN_CLAMP, CAMERA_FIRST_PERSON_MAX_CLAMP]
    exact angleClamp_mem (by nlinarith) _
  · rw [e1, e3] at hr ⊢
    have ez := updateCameraFreeZoom_cameraAngle (updateCameraMouse s h).1 (GetMouseWheelMove h)
      camera
    rw [ea] at ez
    rw [← ez] at hr
    simp only [UpdateCamera, e, hm, if_true, updateCameraFree, cameraPositionUpdate]
    exact updateCameraFreeInputs_pitch m _ _ _ _ hr

/-- C7 on the initial state (pitch 0) put in third person, first person and free mode. -/
theorem updateCamera_pitch_range_witness :
    (UpdateCamera ⟨fun _ => (0 : ℚ), fun _ => 1⟩
        { CameraState.initial ℚ with cameraMode := CAMERA_THIRD_PERSON } (Host.standalone ℚ)
        (viewCamera ℚ)).1.cameraAngle.y ≤ 5 * PI ℚ / 180
      ∧ (UpdateCamera ⟨fun _ => (0 : ℚ), fun _ => 1⟩
        { CameraState.initial ℚ with cameraMode := CAMERA_FIRST_PERSON } (Host.standalone ℚ)
        (viewCamera ℚ)).1.cameraAngle.y ≤ 85 * PI ℚ / 180
      ∧ (UpdateCamera ⟨fun _ => (0 : ℚ), fun _ => 1⟩
        { CameraState.initial ℚ with cameraMode := CAMERA_FREE } (Host.standalone ℚ)
        (viewCamera ℚ)).1.cameraAngle.y ≤ 85 * PI ℚ / 180 :=
  ⟨((updateCamera_pitch_range _ _ _ _).1 rfl).2,
   ((updateCamera_pitch_range _ _ _ _).2.1 rfl).2,
   ((updateCamera_pitch_range _ _ _ _).2.2 rfl
      (by norm_num [CameraState.initial, PI])).2⟩

end Clamps

/-! ## The mode is never changed by `UpdateCamera` -/

section Mode
variable {R : Type} [LinearOrderedField R]

theorem updateCameraFreeZoom_cameraMode (s : CameraState R) (w : Int) (camera : Camera R) :
    (updateCameraFreeZoom s w camera).1.cameraMode = s.cameraMode := by
  unfold updateCameraFreeZoom
  split_ifs <;> rfl

theorem updateCameraFreeInputs_cameraMode (m : MathH R) (s : CameraState R) (h : Host R)
    (panKey : Bool) (camera : Camera R) :
    (updateCameraFreeInputs m s h panKey camera).1.cameraMode = s.cameraMode := by
  unfold updateCameraFreeInputs
  split_ifs <;> rfl

theorem updateCamera_cameraMode (m : MathH R) (s : CameraState R) (h : Host R)
    (camera : Camera R) : (UpdateCamera m s h camera).1.cameraMode = s.cameraMode := by
  have e := updateCameraMouse_cameraMode s h
  unfold UpdateCamera
  simp only
  split_ifs
  · simp only [updateCameraFree, updateCameraFreeInputs_cameraMode,
      updateCameraFreeZoom_cameraMode, e]
  · simp only [updateCameraOrbital, e]
  · simp only [updateCameraThirdPerson, e]
  · simp only [updateCameraFirstPerson, e]
  · exact e

end Mode

/-! ## Orbital camera -/

section Orbital
variable {R : Type} [LinearOrderedField R]

theorem updateCamera_orbital_angle (m : MathH R) (s : CameraState R) (h : Host R)
    (camera : Camera R) (hm : s.cameraMode = CAMERA_ORBITAL) :
    (UpdateCamera m s h camera).1.cameraAngle
      = ⟨s.cameraAngle.x + CAMERA_ORBITAL_SPEED R, s.cameraAngle.y⟩ := by
  have e := updateCameraMouse_cameraMode s h
  have ea := updateCameraMouse_cameraAngle s h
  have h1 : ¬ (CAMERA_ORBITAL = CAMERA_FREE) := by decide
  simp only [UpdateCamera, e, hm, h1, if_true, if_false, updateCameraOrbital, ea]

theorem updateCameraFrames_orbital_angle (m : MathH R) (hs : List (Host R)) :
    ∀ (s : CameraState R) (camera : Camera R), s.cameraMode = CAMERA_ORBITAL →
      (updateCameraFrames m hs (s, camera)).1.cameraAngle.x
          = s.cameraAngle.x + (hs.length : R) * 0.01
        ∧ (updateCameraFrames m hs (s, camera)).1.cameraAngle.y = s.cameraAngle.y := by
  induction hs with
  | nil =>
    intro s camera _
    simp [updateCameraFrames]
  | cons h hs ih =>
    intro s camera hm
    have hm1 : (UpdateCamera m s h camera).1.cameraMode = CAMERA_ORBITAL := by
      rw [updateCamera_cameraMode, hm]
    have step := updateCamera_orbital_angle m s h camera hm
    have r := ih (UpdateCamera m s h camera).1 (UpdateCamera m s h camera).2.2 hm1
    simp only [updateCameraFrames]
    rw [r.1, r.2, step]
    simp only [List.length_cons, CAMERA_ORBITAL_SPEED]
    push_cast
    constructor
    · ring
    · trivial

/-- C8: in orbital mode, whatever the input sample, one `UpdateCamera` sets
`cameraAngle.x` to exactly `cameraAngle.x + 0.01` and leaves `cameraAngle.y` unchanged;
hence `n` consecutive calls, on any `n` input samples, advance `cameraAngle.x` by `n·0.01`
and leave `cameraAngle.y` unchanged. -/
theorem updateCamera_orbital_rotation (m : MathH R) (s : CameraState R) (h : Host R)
    (camera : Camera R) (hm : s.cameraMode = CAMERA_ORBITAL) :
    (UpdateCamera m s h camera).1.cameraAngle.x = s.cameraAngle.x + 0.01
      ∧ (UpdateCamera m s h camera).1.cameraAngle.y = s.cameraAngle.y
      ∧ ∀ hs : List (Host R),
          (updateCameraFrames m hs (s, camera)).1.cameraAngle.x
              = s.cameraAngle.x + (hs.length : R) * 0.01
            ∧ (updateCameraFrames m hs (s, camera)).1.cameraAngle.y = s.cameraAngle.y := by
  have step := updateCamera_orbital_angle m s h camera hm
  refine ⟨?_, ?_, fun hs => updateCameraFrames_orbital_angle m hs s camera hm⟩
  · rw [step]
    simp only [CAMERA_ORBITAL_SPEED]
  · rw [step]

/-- C8 on the initial state put in orbital mode: three frames without input turn the
camera by 0.03. -/
theorem updateCamera_orbital_rotation_witness :
    (updateCameraFrames ⟨fun _ => (0 : ℚ), fun _ => 1⟩
        [Host.standalone ℚ, Host.standalone ℚ, Host.standalone ℚ]
        ({ CameraState.initial ℚ with cameraMode := CAMERA_ORBITAL },
          viewCamera ℚ)).1.cameraAngle.x = 0.03 := by
  have w := ((updateCamera_orbital_rotation ⟨fun _ => (0 : ℚ), fun _ => 1⟩
    { CameraState.initial ℚ with cameraMode := CAMERA_ORBITAL } (Host.standalone ℚ)
    (viewCamera ℚ) rfl).2.2
    [Host.standalone ℚ, Host.standalone ℚ, Host.standalone ℚ]).1
  rw [w]
  simp only [CameraState.initial, List.length_cons, List.length_nil]
  norm_num

end Orbital

/-! ## Evaluations on concrete frames -/

section Frames

theorem initial_moveControl :
    (![87, 65, 83, 68, 69, 81] : Fin 6 → Int) MOVE_FRONT = 87
      ∧ (![87, 65, 83, 68, 69, 81] : Fin 6 → Int) MOVE_LEFT = 65
      ∧ (![87, 65, 83, 68, 69, 81] : Fin 6 → Int) MOVE_BACK = 83
      ∧ (![87, 65, 83, 68, 69, 81] : Fin 6 → Int) MOVE_RIGHT = 68
      ∧ (![87, 65, 83, 68, 69, 81] : Fin 6 → Int) MOVE_UP = 69
      ∧ (![87, 65, 83, 68, 69, 81] : Fin 6 → Int) MOVE_DOWN = 81 :=
  ⟨rfl, rfl, rfl, rfl, rfl, rfl⟩

/-- C6: the smooth zoom of the free camera is not clamped. The free camera at distance 5.0
(inside [0.3, 120.0]), pointer last seen at (640, 360), receives a frame with the pointer
at (640, 160) while the pan button and the alt and smooth zoom keys are down: the mouse
variation is (0, −200) and the target distance becomes 5 + (−200)·0.05 = −5, below 0.3. -/
theorem updateCamera_free_smoothZoom_unclamped (m : MathH ℚ) :
    (centredState ℚ CAMERA_FREE).cameraTargetDistance = 5
      ∧ (UpdateCamera m (centredState ℚ CAMERA_FREE) (smoothZoomHost ℚ)
          (viewCamera ℚ)).1.cameraMouseVariation = ⟨0, -200⟩
      ∧ (UpdateCamera m (centredState ℚ CAMERA_FREE) (smoothZoomHost ℚ)
          (viewCamera ℚ)).1.cameraTargetDistance = -5 := by
  norm_num [UpdateCamera, updateCameraMouse, centredState, smoothZoomHost, viewCamera,
    CameraState.initial, Host.standalone, CAMERA_FREE, CAMERA_ORBITAL, GetMousePosition,
    GetMouseWheelMove, IsMouseButtonDown, ShowCursor, updateCameraFree, updateCameraFreeZoom,
    updateCameraFreeInputs, IsKeyDown, zoomTargetMove, CAMERA_FREE_SMOOTH_ZOOM_SENSITIVITY]

/-- C9: the third person camera drifts without input. From the initial state in third
person mode with the pointer at rest at the screen centre and the camera at the origin,
a first frame without input gives position (0.4, 0.765, 5) and target (0.4, 0.765, 0);
a second frame without input (mouse variation (0, 0), no wheel, no key, no button) gives
position (0.8, 1.53, 10) and target (0.8, 1.53, 5): the target is recomputed from the
camera position, which the previous frame had moved onto the sphere around the target. -/
theorem updateCamera_thirdPerson_rest_drift :
    (updateCameraFrames ⟨Real.sin, Real.cos⟩ [restingHost ℝ]
        (centredState ℝ CAMERA_THIRD_PERSON, originCamera ℝ)).1.cameraMouseVariation = ⟨0, 0⟩
    ∧ (updateCameraFrames ⟨Real.sin, Real.cos⟩ [restingHost ℝ]
        (centredState ℝ CAMERA_THIRD_PERSON, originCamera ℝ)).2
      = ⟨⟨0.4, 0.765, 5⟩, ⟨0.4, 0.765, 0⟩, ⟨0, 1, 0⟩⟩
    ∧ (updateCameraFrames ⟨Real.sin, Real.cos⟩ [restingHost ℝ, restingHost ℝ]
        (centredState ℝ CAMERA_THIRD_PERSON, originCamera ℝ)).1.cameraMouseVariation = ⟨0, 0⟩
    ∧ (updateCameraFrames ⟨Real.sin, Real.cos⟩ [restingHost ℝ, restingHost ℝ]
        (centredState ℝ CAMERA_THIRD_PERSON, originCamera ℝ)).2
      = ⟨⟨0.8, 1.53, 10⟩, ⟨0.8, 1.53, 5⟩, ⟨0, 1, 0⟩⟩ := by
  have hb : Int.tdiv 720 3 = 240 := by decide
  obtain ⟨k0, k1, k2, k3, k4, k5⟩ := initial_moveControl
  norm_num [updateCameraFrames, UpdateCamera, updateCameraMouse, centredState, restingHost,
    originCamera, CameraState.initial, Host.standalone, CAMERA_FREE, CAMERA_ORBITAL,
    CAMERA_THIRD_PERSON, CAMERA_FIRST_PERSON, GetMousePosition, GetMouseWheelMove,
    IsMouseButtonDown, HideCursor, GetScreenHeight, GetScreenWidth, hb, SetMousePosition,
    IsKeyDown, updateCameraKeys, updateCameraThirdPerson, cameraPositionUpdate,
    CAMERA_THIRD_PERSON_OFFSET, PLAYER_HEIGHT, CAMERA_FIRST_PERSON_HEIGHT_RELATIVE_EYES_POSITION,
    CAMERA_THIRD_PERSON_MIN_CLAMP, CAMERA_THIRD_PERSON_MAX_CLAMP,
    CAMERA_THIRD_PERSON_DISTANCE_CLAMP, CAMERA_SCROLL_SENSITIVITY, DEG2RAD, PI,
    k0, k1, k2, k3, k4, k5]

/-- C10: the first person camera sinks without input once the move counter is not 0. From
the initial state in first person mode with the pointer at rest at the screen centre and
the camera at the origin, a frame with the front key down sets the move counter to 1 and
gives position (0, −sin(1/5)/30, −0.05) and target (0, 0, −25.05); a following frame
without input (mouse variation (0, 0), no wheel, no key, no button) subtracts the bob
term sin(1/5)/30 again from `position.y` and moves `target.y` down by the same amount,
and sin(1/5) is positive. -/
theorem updateCamera_firstPerson_rest_drift :
    (updateCameraFrames ⟨Real.sin, Real.cos⟩ [walkingHost ℝ]
        (centredState ℝ CAMERA_FIRST_PERSON, originCamera ℝ)).1.cameraMoveCounter = 1
    ∧ (updateCameraFrames ⟨Real.sin, Real.cos⟩ [walkingHost ℝ]
        (centredState ℝ CAMERA_FIRST_PERSON, originCamera ℝ)).2
      = ⟨⟨0, -Real.sin (1 / 5) / 30, -0.05⟩, ⟨0, 0, -25.05⟩,
          ⟨Real.sin (1 / 10) / 200, 1, -Real.sin (1 / 10) / 200⟩⟩
    ∧ (updateCameraFrames ⟨Real.sin, Real.cos⟩ [walkingHost ℝ, restingHost ℝ]
        (centredState ℝ CAMERA_FIRST_PERSON, originCamera ℝ)).1.cameraMouseVariation = ⟨0, 0⟩
    ∧ (updateCameraFrames ⟨Real.sin, Real.cos⟩ [walkingHost ℝ, restingHost ℝ]
        (centredState ℝ CAMERA_FIRST_PERSON, originCamera ℝ)).2
      = ⟨⟨0, -Real.sin (1 / 5) / 30 - Real.sin (1 / 5) / 30, -0.05⟩,
          ⟨0, -Real.sin (1 / 5) / 30, -25.05⟩,
          ⟨Real.sin (1 / 10) / 200, 1, -Real.sin (1 / 10) / 200⟩⟩
    ∧ 0 < Real.sin (1 / 5) := by
  have hb : Int.tdiv 720 3 = 240 := by decide
  obtain ⟨k0, k1, k2, k3, k4, k5⟩ := initial_moveControl
  have hs : 0 < Real.sin (1 / 5) :=
    Real.sin_pos_of_pos_of_lt_pi (by norm_num) (by linarith [Real.pi_gt_three])
  norm_num [updateCameraFrames, UpdateCamera, updateCameraMouse, centredState, restingHost,
    walkingHost, originCamera, CameraState.initial, Host.standalone, CAMERA_FREE,
    CAMERA_ORBITAL, CAMERA_THIRD_PERSON, CAMERA_FIRST_PERSON, GetMousePosition,
    GetMouseWheelMove, IsMouseButtonDown, HideCursor, GetScreenHeight, GetScreenWidth, hb,
    SetMousePosition, IsKeyDown, updateCameraKeys, updateCameraFirstPerson,
    CAMERA_FIRST_PERSON_MIN_CLAMP, CAMERA_FIRST_PERSON_MAX_CLAMP, DEG2RAD, PI,
    PLAYER_MOVEMENT_DIVIDER, CAMERA_FIRST_PERSON_FOCUS_DISTANCE,
    CAMERA_FIRST_PERSON_STEP_DIVIDER, CAMERA_FIRST_PERSON_STEP_TRIGONOMETRIC_DIVIDER,
    CAMERA_FIRST_PERSON_WAVING_DIVIDER, hs, k0, k1, k2, k3, k4, k5]
  ring

end Frames

/-! ## Free camera -/

section Free
variable {R : Type} [LinearOrderedField R]

theorem updateCameraMouse_controls (s : CameraState R) (h : Host R) :
    (updateCameraMouse s h).1.cameraMoveControl = s.cameraMoveControl
      ∧ (updateCameraMouse s h).1.cameraPanControlKey = s.cameraPanControlKey
      ∧ (updateCameraMouse s h).1.cameraAltControlKey = s.cameraAltControlKey
      ∧ (updateCameraMouse s h).1.cameraSmoothZoomControlKey = s.cameraSmoothZoomControlKey
      ∧ (updateCameraMouse s h).1.cameraMouseSensitivity = s.cameraMouseSensitivity := by
  unfold updateCameraMouse
  simp only
  split_ifs <;> exact ⟨rfl, rfl, rfl, rfl, rfl⟩

theorem updateCameraMouse_keyDown (s : CameraState R) (h : Host R) :
    (updateCameraMouse s h).2.keyDown = h.keyDown := by
  unfold updateCameraMouse
  simp only
  split_ifs <;> rfl

theorem updateCameraFreeZoom_controls (s : CameraState R) (w : Int) (camera : Camera R) :
    (updateCameraFreeZoom s w camera).1.cameraMoveControl = s.cameraMoveControl
      ∧ (updateCameraFreeZoom s w camera).1.cameraPanControlKey = s.cameraPanControlKey
      ∧ (updateCameraFreeZoom s w camera).1.cameraAltControlKey = s.cameraAltControlKey
      ∧ (updateCameraFreeZoom s w camera).1.cameraSmoothZoomControlKey
          = s.cameraSmoothZoomControlKey
      ∧ (updateCameraFreeZoom s w camera).1.cameraMouseSensitivity = s.cameraMouseSensitivity
      ∧ (updateCameraFreeZoom s w camera).1.cameraMouseVariation = s.cameraMouseVariation
      ∧ (updateCameraFreeZoom s w camera).1.cameraMoveCounter = s.cameraMoveCounter := by
  unfold updateCameraFreeZoom
  split_ifs <;> exact ⟨rfl, rfl, rfl, rfl, rfl, rfl, rfl⟩

theorem updateCameraFreeInputs_controls (m : MathH R) (s : CameraState R) (h : Host R)
    (panKey : Bool) (camera : Camera R) :
    (updateCameraFreeInputs m s h panKey camera).1.cameraMoveControl = s.cameraMoveControl
      ∧ (updateCameraFreeInputs m s h panKey camera).1.cameraPanControlKey
          = s.cameraPanControlKey
      ∧ (updateCameraFreeInputs m s h panKey camera).1.cameraAltControlKey
          = s.cameraAltControlKey
      ∧ (updateCameraFreeInputs m s h panKey camera).1.cameraSmoothZoomControlKey
          = s.cameraSmoothZoomControlKey
      ∧ (updateCameraFreeInputs m s h panKey camera).1.cameraMouseSensitivity
          = s.cameraMouseSensitivity
      ∧ (updateCameraFreeInputs m s h panKey camera).1.cameraMouseVariation
          = s.cameraMouseVariation
      ∧ (updateCameraFreeInputs m s h panKey camera).1.cameraMoveCounter
          = s.cameraMoveCounter := by
  unfold updateCameraFreeInputs
  split_ifs <;> exact ⟨rfl, rfl, rfl, rfl, rfl, rfl, rfl⟩

/-- `UpdateCamera` never writes the key bindings or the mouse sensitivity. -/
theorem updateCamera_controls (m : MathH R) (s : CameraState R) (h : Host R)
    (camera : Camera R) :
    (UpdateCamera m s h camera).1.cameraMoveControl = s.cameraMoveControl
      ∧ (UpdateCamera m s h camera).1.cameraPanControlKey = s.cameraPanControlKey
      ∧ (UpdateCamera m s h camera).1.cameraAltControlKey = s.cameraAltControlKey
      ∧ (UpdateCamera m s h camera).1.cameraSmoothZoomControlKey
          = s.cameraSmoothZoomControlKey
      ∧ (UpdateCamera m s h camera).1.cameraMouseSensitivity = s.cameraMouseSensitivity := by
  obtain ⟨a1, a2, a3, a4, a5⟩ := updateCameraMouse_controls s h
  unfold UpdateCamera
  simp only
  split_ifs
  · obtain ⟨b1, b2, b3, b4, b5, _, _⟩ := updateCameraFreeInputs_controls m
      (updateCameraFreeZoom (updateCameraMouse s h).1 (GetMouseWheelMove h) camera).1
      (updateCameraMouse s h).2 (IsMouseButtonDown h s.cameraPanControlKey)
      (updateCameraFreeZoom (updateCameraMouse s h).1 (GetMouseWheelMove h) camera).2
    obtain ⟨c1, c2, c3, c4, c5, _, _⟩ := updateCameraFreeZoom_controls
      (updateCameraMouse s h).1 (GetMouseWheelMove h) camera
    simp only [updateCameraFree]
    exact ⟨b1.trans (c1.trans a1), b2.trans (c2.trans a2), b3.trans (c3.trans a3),
      b4.trans (c4.trans a4), b5.trans (c5.trans a5)⟩
  · exact ⟨a1, a2, a3, a4, a5⟩
  · exact ⟨a1, a2, a3, a4, a5⟩
  · exact ⟨a1, a2, a3, a4, a5⟩
  · exact ⟨a1, a2, a3, a4, a5⟩

/-- With no wheel motion the zoom of the free camera changes nothing: the branches that
fire translate the target by `0*(...)*1.5/distance`. -/
theorem updateCameraFreeZoom_zero (s : CameraState R) (camera : Camera R) :
    updateCameraFreeZoom s 0 camera = (s, camera) := by
  have z : zoomTargetMove 0 s.cameraTargetDistance camera = camera := by
    simp [zoomTargetMove]
  unfold updateCameraFreeZoom
  simp only [lt_irrefl, gt_iff_lt, and_false, if_false, z, ite_self]

/-- With the alt key and the pan button up the inputs of the free camera change nothing. -/
theorem updateCameraFreeInputs_idle (m : MathH R) (s : CameraState R) (h : Host R)
    (camera : Camera R) (ha : IsKeyDown h s.cameraAltControlKey = false) :
    updateCameraFreeInputs m s h false camera = (s, camera) := by
  simp [updateCameraFreeInputs, ha]

/-- In free mode `UpdateCamera` is the mouse stage followed by the free camera case. -/
theorem updateCamera_free_eq (m : MathH R) (s : CameraState R) (h : Host R)
    (camera : Camera R) (hm : s.cameraMode = CAMERA_FREE) :
    UpdateCamera m s h camera
      = ((updateCameraFree m (updateCameraMouse s h).1 (updateCameraMouse s h).2
            (GetMouseWheelMove h) (IsMouseButtonDown h s.cameraPanControlKey) camera).1,
          (updateCameraMouse s h).2,
          (updateCameraFree m (updateCameraMouse s h).1 (updateCameraMouse s h).2
            (GetMouseWheelMove h) (IsMouseButtonDown h s.cameraPanControlKey) camera).2) := by
  have e := updateCameraMouse_cameraMode s h
  simp only [UpdateCamera, e, hm, if_true]

theorem cameraPositionUpdate_idem (m : MathH R) (a : Vector2 R) (d : R) (camera : Camera R) :
    cameraPositionUpdate m a d (cameraPositionUpdate m a d camera)
      = cameraPositionUpdate m a d camera := rfl

/-- The pose returned by a free camera update is a recomputed position around its own
target. -/
theorem updateCamera_free_pose (m : MathH R) (s : CameraState R) (h : Host R)
    (camera : Camera R) (hm : s.cameraMode = CAMERA_FREE) :
    ∃ c : Camera R, (UpdateCamera m s h camera).2.2
      = cameraPositionUpdate m (UpdateCamera m s h camera).1.cameraAngle
          (UpdateCamera m s h camera).1.cameraTargetDistance c := by
  rw [updateCamera_free_eq m s h camera hm]
  exact ⟨_, rfl⟩

/-- A free camera update without wheel motion, with no key down and the pan button up
only recomputes the position from the angles, the distance and the target it was given. -/
theorem updateCamera_free_idle (m : MathH R) (s : CameraState R) (h : Host R)
    (camera : Camera R) (hm : s.cameraMode = CAMERA_FREE)
    (hw : GetMouseWheelMove h = 0) (hk : ∀ key, IsKeyDown h key = false)
    (hp : IsMouseButtonDown h s.cameraPanControlKey = false) :
    (UpdateCamera m s h camera).2.2
        = cameraPositionUpdate m s.cameraAngle s.cameraTargetDistance camera
      ∧ (UpdateCamera m s h camera).1.cameraAngle = s.cameraAngle
      ∧ (UpdateCamera m s h camera).1.cameraTargetDistance = s.cameraTargetDistance := by
  have hk1 : ∀ key, IsKeyDown (updateCameraMouse s h).2 key = false := by
    intro key
    have := hk key
    simpa [IsKeyDown, updateCameraMouse_keyDown] using this
  rw [updateCamera_free_eq m s h camera hm, hw, hp]
  simp only [updateCameraFree, updateCameraFreeZoom_zero,
    updateCameraFreeInputs_idle m _ _ camera (hk1 _), focusToCenter, hk1, Bool.false_eq_true,
    if_false, updateCameraMouse_cameraAngle, updateCameraMouse_cameraTargetDistance, and_self]

/-- C11: in free mode the pose is unchanged under no input. For every state in free mode,
every camera and every input sample, the pose returned by `UpdateCamera` is returned
again by a further `UpdateCamera` whose sample has no wheel motion, no key down and the
pan button up (whatever the pointer did): position, target and up are the same, and
`cameraAngle` and `cameraTargetDistance` are unchanged. -/
theorem updateCamera_free_rest (m : MathH R) (s : CameraState R) (h1 h2 : Host R)
    (camera : Camera R) (hm : s.cameraMode = CAMERA_FREE)
    (hw : GetMouseWheelMove h2 = 0) (hk : ∀ key, IsKeyDown h2 key = false)
    (hp : IsMouseButtonDown h2 s.cameraPanControlKey = false) :
    (UpdateCamera m (UpdateCamera m s h1 camera).1 h2 (UpdateCamera m s h1 camera).2.2).2.2
        = (UpdateCamera m s h1 camera).2.2
      ∧ (UpdateCamera m (UpdateCamera m s h1 camera).1 h2
          (UpdateCamera m s h1 camera).2.2).1.cameraAngle
        = (UpdateCamera m s h1 camera).1.cameraAngle
      ∧ (UpdateCamera m (UpdateCamera m s h1 camera).1 h2
          (UpdateCamera m s h1 camera).2.2).1.cameraTargetDistance
        = (UpdateCamera m s h1 camera).1.cameraTargetDistance := by
  have hm1 : (UpdateCamera m s h1 camera).1.cameraMode = CAMERA_FREE := by
    rw [updateCamera_cameraMode, hm]
  have hp1 : IsMouseButtonDown h2 (UpdateCamera m s h1 camera).1.cameraPanControlKey = false := by
    rw [(updateCamera_controls m s h1 camera).2.1]
    exact hp
  obtain ⟨c, hc⟩ := updateCamera_free_pose m s h1 camera hm
  have idle := updateCamera_free_idle m (UpdateCamera m s h1 camera).1 h2
    (UpdateCamera m s h1 camera).2.2 hm1 hw hk hp1
  refine ⟨?_, idle.2.1, idle.2.2⟩
  rw [idle.1]
  conv_lhs => rw [hc]
  conv_rhs => rw [hc]
  exact cameraPositionUpdate_idem m _ _ c

/-- C11 on the initial state in free mode: the pose returned after a smooth zoom drag is
returned again by a frame with the pointer at rest and nothing pressed. -/
theorem updateCamera_free_rest_witness :
    (UpdateCamera ⟨fun _ => (0 : ℚ), fun _ => 1⟩
        (UpdateCamera ⟨fun _ => (0 : ℚ), fun _ => 1⟩ (centredState ℚ CAMERA_FREE)
          (smoothZoomHost ℚ) (viewCamera ℚ)).1
        (restingHost ℚ)
        (UpdateCamera ⟨fun _ => (0 : ℚ), fun _ => 1⟩ (centredState ℚ CAMERA_FREE)
          (smoothZoomHost ℚ) (viewCamera ℚ)).2.2).2.2
      = (UpdateCamera ⟨fun _ => (0 : ℚ), fun _ => 1⟩ (centredState ℚ CAMERA_FREE)
          (smoothZoomHost ℚ) (viewCamera ℚ)).2.2 :=
  (updateCamera_free_rest ⟨fun _ => (0 : ℚ), fun _ => 1⟩ (centredState ℚ CAMERA_FREE)
    (smoothZoomHost ℚ) (restingHost ℚ) (viewCamera ℚ) rfl rfl (fun _ => rfl) rfl).1

end Free
/-! ## Pointer confinement -/

section Confinement
variable {R : Type} [LinearOrderedField R]

theorem updateCamera_host (m : MathH R) (s : CameraState R) (h : Host R) (camera : Camera R) :
    (UpdateCamera m s h camera).2.1 = (updateCameraMouse s h).2 := by
  unfold UpdateCamera
  simp only
  split_ifs <;> rfl

theorem updateCameraFreeZoom_cameraMousePosition (s : CameraState R) (w : Int)
    (camera : Camera R) :
    (updateCameraFreeZoom s w camera).1.cameraMousePosition = s.cameraMousePosition := by
  unfold updateCameraFreeZoom
  split_ifs <;> rfl

theorem updateCameraFreeInputs_cameraMousePosition (m : MathH R) (s : CameraState R)
    (h : Host R) (panKey : Bool) (camera : Camera R) :
    (updateCameraFreeInputs m s h panKey camera).1.cameraMousePosition
      = s.cameraMousePosition := by
  unfold updateCameraFreeInputs
  split_ifs <;> rfl

/-- After the mouse stage nothing in `UpdateCamera` writes the mouse variation or the
mouse position. -/
theorem updateCamera_mouse (m : MathH R) (s : CameraState R) (h : Host R)
    (camera : Camera R) :
    (UpdateCamera m s h camera).1.cameraMouseVariation
        = (updateCameraMouse s h).1.cameraMouseVariation
      ∧ (UpdateCamera m s h camera).1.cameraMousePosition
        = (updateCameraMouse s h).1.cameraMousePosition := by
  unfold UpdateCamera
  simp only
  split_ifs
  · simp only [updateCameraFree]
    rw [(updateCameraFreeInputs_controls m _ _ _ _).2.2.2.2.2.1,
      (updateCameraFreeZoom_controls _ _ _).2.2.2.2.2.1,
      updateCameraFreeInputs_cameraMousePosition, updateCameraFreeZoom_cameraMousePosition]
    exact ⟨rfl, rfl⟩
  · exact ⟨rfl, rfl⟩
  · exact ⟨rfl, rfl⟩
  · exact ⟨rfl, rfl⟩
  · exact ⟨rfl, rfl⟩

/-- C12: edge confinement. In every mode other than free and orbital, with `b` the screen
height divided by 3 (integer division), `w`, `h` the screen size and (x, y) the sampled
pointer: if x < b the calls issued are `HideCursor()` and `SetMousePosition(w − b, y)`;
else if y < b, `SetMousePosition(x, h − b)`; else if x > w − b, `SetMousePosition(b, y)`;
else if y > h − b, `SetMousePosition(x, b)`; and in each of the four cases the mouse
variation keeps its value from the previous frame. -/
theorem updateCamera_edge_confinement (m : MathH R) (s : CameraState R) (h : Host R)
    (camera : Camera R) (hf : s.cameraMode ≠ CAMERA_FREE) (ho : s.cameraMode ≠ CAMERA_ORBITAL) :
    (h.mousePosition.x < ((Int.tdiv h.screenHeight 3 : Int) : R) →
        (UpdateCamera m s h camera).2.1.calls = h.calls ++ [Call.HideCursor,
            Call.SetMousePosition
              ⟨((h.screenWidth - Int.tdiv h.screenHeight 3 : Int) : R), h.mousePosition.y⟩]
          ∧ (UpdateCamera m s h camera).1.cameraMouseVariation = s.cameraMouseVariation)
    ∧ (¬ h.mousePosition.x < ((Int.tdiv h.screenHeight 3 : Int) : R) →
        h.mousePosition.y < ((Int.tdiv h.screenHeight 3 : Int) : R) →
        (UpdateCamera m s h camera).2.1.calls = h.calls ++ [Call.HideCursor,
            Call.SetMousePosition
              ⟨h.mousePosition.x, ((h.screenHeight - Int.tdiv h.screenHeight 3 : Int) : R)⟩]
          ∧ (UpdateCamera m s h camera).1.cameraMouseVariation = s.cameraMouseVariation)
    ∧ (¬ h.mousePosition.x < ((Int.tdiv h.screenHeight 3 : Int) : R) →
        ¬ h.mousePosition.y < ((Int.tdiv h.screenHeight 3 : Int) : R) →
        h.mousePosition.x > ((h.screenWidth - Int.tdiv h.screenHeight 3 : Int) : R) →
        (UpdateCamera m s h camera).2.1.calls = h.calls ++ [Call.HideCursor,
            Call.SetMousePosition ⟨((Int.tdiv h.screenHeight 3 : Int) : R), h.mousePosition.y⟩]
          ∧ (UpdateCamera m s h camera).1.cameraMouseVariation = s.cameraMouseVariation)
    ∧ (¬ h.mousePosition.x < ((Int.tdiv h.screenHeight 3 : Int) : R) →
        ¬ h.mousePosition.y < ((Int.tdiv h.screenHeight 3 : Int) : R) →
        ¬ h.mousePosition.x > ((h.screenWidth - Int.tdiv h.screenHeight 3 : Int) : R) →
        h.mousePosition.y > ((h.screenHeight - Int.tdiv h.screenHeight 3 : Int) : R) →
        (UpdateCamera m s h camera).2.1.calls = h.calls ++ [Call.HideCursor,
            Call.SetMousePosition ⟨h.mousePosition.x, ((Int.tdiv h.screenHeight 3 : Int) : R)⟩]
          ∧ (UpdateCamera m s h camera).1.cameraMouseVariation = s.cameraMouseVariation) := by
  rw [updateCamera_host, (updateCamera_mouse m s h camera).1]
  have hfo : s.cameraMode ≠ CAMERA_FREE ∧ s.cameraMode ≠ CAMERA_ORBITAL := ⟨hf, ho⟩
  refine ⟨fun h1 => ?_, fun h1 h2 => ?_, fun h1 h2 h3 => ?_, fun h1 h2 h3 h4 => ?_⟩
  · simp only [updateCameraMouse, GetMousePosition, GetScreenHeight, GetScreenWidth,
      if_pos hfo, if_pos h1, SetMousePosition, HideCursor, List.append_assoc,
      List.singleton_append, and_self]
  · simp only [updateCameraMouse, GetMousePosition, GetScreenHeight, GetScreenWidth,
      if_pos hfo, if_neg h1, if_pos h2, SetMousePosition, HideCursor, List.append_assoc,
      List.singleton_append, and_self]
  · simp only [updateCameraMouse, GetMousePosition, GetScreenHeight, GetScreenWidth,
      if_pos hfo, if_neg h1, if_neg h2, if_pos h3, SetMousePosition, HideCursor,
      List.append_assoc, List.singleton_append, and_self]
  · simp only [updateCameraMouse, GetMousePosition, GetScreenHeight, GetScreenWidth,
      if_pos hfo, if_neg h1, if_neg h2, if_neg h3, if_pos h4, SetMousePosition, HideCursor,
      List.append_assoc, List.singleton_append, and_self]

/-- C12 on the scenario of the specification: first person mode, 1280x720 screen, pointer
sampled at (1200, 360): the pointer is moved to (240, 360) and the mouse variation keeps
its previous value. -/
theorem updateCamera_edge_confinement_witness :
    (UpdateCamera ⟨fun _ => (0 : ℚ), fun _ => 1⟩ (centredState ℚ CAMERA_FIRST_PERSON)
        { Host.standalone ℚ with mousePosition := ⟨1200, 360⟩ } (originCamera ℚ)).2.1.calls
      = [Call.HideCursor, Call.SetMousePosition ⟨240, 360⟩]
    ∧ (UpdateCamera ⟨fun _ => (0 : ℚ), fun _ => 1⟩ (centredState ℚ CAMERA_FIRST_PERSON)
        { Host.standalone ℚ with mousePosition := ⟨1200, 360⟩ }
        (originCamera ℚ)).1.cameraMouseVariation
      = (centredState ℚ CAMERA_FIRST_PERSON).cameraMouseVariation := by
  have hb : Int.tdiv 720 3 = 240 := by decide
  have w := (updateCamera_edge_confinement ⟨fun _ => (0 : ℚ), fun _ => 1⟩
    (centredState ℚ CAMERA_FIRST_PERSON) { Host.standalone ℚ with mousePosition := ⟨1200, 360⟩ }
    (originCamera ℚ) (by decide) (by decide)).2.2.1
    (by norm_num [Host.standalone, hb]) (by norm_num [Host.standalone, hb])
    (by norm_num [Host.standalone, hb])
  norm_num [Host.standalone, hb] at w
  exact w

end Confinement

/-! ## Spherical position -/

section Spherical
variable {R : Type} [LinearOrderedField R]

/-- In free, orbital and third person mode the pose returned by `UpdateCamera` is the
position update applied with the angles and the distance stored by that call. -/
theorem updateCamera_spherical_pose (m : MathH R) (s : CameraState R) (h : Host R)
    (camera : Camera R)
    (hm : s.cameraMode = CAMERA_FREE ∨ s.cameraMode = CAMERA_ORBITAL
      ∨ s.cameraMode = CAMERA_THIRD_PERSON) :
    ∃ c : Camera R, (UpdateCamera m s h camera).2.2
      = cameraPositionUpdate m (UpdateCamera m s h camera).1.cameraAngle
          (UpdateCamera m s h camera).1.cameraTargetDistance c := by
  have e := updateCameraMouse_cameraMode s h
  have h1 : ¬ (CAMERA_ORBITAL = CAMERA_FREE) := by decide
  have h2 : ¬ (CAMERA_THIRD_PERSON = CAMERA_FREE) := by decide
  have h3 : ¬ (CAMERA_THIRD_PERSON = CAMERA_ORBITAL) := by decide
  rcases hm with hm | hm | hm
  · simp only [UpdateCamera, e, hm, if_true, updateCameraFree]
    exact ⟨_, rfl⟩
  · simp only [UpdateCamera, e, hm, h1, if_true, if_false, updateCameraOrbital]
    exact ⟨_, rfl⟩
  · simp only [UpdateCamera, e, hm, h2, h3, or_true, if_true, if_false,
      updateCameraThirdPerson]
    exact ⟨_, rfl⟩

/-- C13: spherical position recompute, with the sign the code uses. After an
`UpdateCamera` in free, orbital or third person mode the returned position is
target' + d'·( sin(ax')·cos(ay'), σ·sin(ay')², cos(ax')·cos(ay') ) with σ = +1 when
ay' ≤ 0 and σ = −1 when ay' > 0, where target', d', ax', ay' are the target, the target
distance and the angles after the update. -/
theorem updateCamera_spherical_position (m : MathH R) (s : CameraState R) (h : Host R)
    (camera : Camera R)
    (hm : s.cameraMode = CAMERA_FREE ∨ s.cameraMode = CAMERA_ORBITAL
      ∨ s.cameraMode = CAMERA_THIRD_PERSON) :
    (UpdateCamera m s h camera).2.2.position.x
        = (UpdateCamera m s h camera).2.2.target.x
          + (UpdateCamera m s h camera).1.cameraTargetDistance
            * (m.sin (UpdateCamera m s h camera).1.cameraAngle.x
                * m.cos (UpdateCamera m s h camera).1.cameraAngle.y)
      ∧ (UpdateCamera m s h camera).2.2.position.y
        = (UpdateCamera m s h camera).2.2.target.y
          + (UpdateCamera m s h camera).1.cameraTargetDistance
            * ((if (UpdateCamera m s h camera).1.cameraAngle.y ≤ 0 then 1 else -1)
                * m.sin (UpdateCamera m s h camera).1.cameraAngle.y ^ 2)
      ∧ (UpdateCamera m s h camera).2.2.position.z
        = (UpdateCamera m s h camera).2.2.target.z
          + (UpdateCamera m s h camera).1.cameraTargetDistance
            * (m.cos (UpdateCamera m s h camera).1.cameraAngle.x
                * m.cos (UpdateCamera m s h camera).1.cameraAngle.y) := by
  obtain ⟨c, hc⟩ := updateCamera_spherical_pose m s h camera hm
  rw [hc]
  simp only [cameraPositionUpdate]
  refine ⟨by ring, ?_, by ring⟩
  have z : (0.0 : R) = 0 := by norm_num
  rw [z]
  split_ifs <;> ring

/-- C13 on the initial state put in orbital mode: the height of the returned position. -/
theorem updateCamera_spherical_position_witness :
    (UpdateCamera ⟨fun _ => (0 : ℚ), fun _ => 1⟩
        { CameraState.initial ℚ with cameraMode := CAMERA_ORBITAL } (Host.standalone ℚ)
        (viewCamera ℚ)).2.2.position.y
      = (UpdateCamera ⟨fun _ => (0 : ℚ), fun _ => 1⟩
          { CameraState.initial ℚ with cameraMode := CAMERA_ORBITAL } (Host.standalone ℚ)
          (viewCamera ℚ)).2.2.target.y
        + (UpdateCamera ⟨fun _ => (0 : ℚ), fun _ => 1⟩
            { CameraState.initial ℚ with cameraMode := CAMERA_ORBITAL } (Host.standalone ℚ)
            (viewCamera ℚ)).1.cameraTargetDistance
          * ((if (UpdateCamera ⟨fun _ => (0 : ℚ), fun _ => 1⟩
                { CameraState.initial ℚ with cameraMode := CAMERA_ORBITAL } (Host.standalone ℚ)
                (viewCamera ℚ)).1.cameraAngle.y ≤ 0 then 1 else -1)
              * (0 : ℚ) ^ 2) :=
  (updateCamera_spherical_position ⟨fun _ => (0 : ℚ), fun _ => 1⟩
    { CameraState.initial ℚ with cameraMode := CAMERA_ORBITAL } (Host.standalone ℚ)
    (viewCamera ℚ) (Or.inr (Or.inl rfl))).2.1

/-- The squared length of the offset written by the position update. -/
theorem cameraPositionUpdate_sq (m : MathH R) (hsc : ∀ x, m.sin x ^ 2 + m.cos x ^ 2 = 1)
    (a : Vector2 R) (d : R) (c : Camera R) :
    ((cameraPositionUpdate m a d c).position.x - (cameraPositionUpdate m a d c).target.x) ^ 2
      + ((cameraPositionUpdate m a d c).position.y - (cameraPositionUpdate m a d c).target.y) ^ 2
      + ((cameraPositionUpdate m a d c).position.z - (cameraPositionUpdate m a d c).target.z) ^ 2
      = d ^ 2 * (m.cos a.y ^ 2 + m.sin a.y ^ 4) := by
  have hx := hsc a.x
  simp only [cameraPositionUpdate]
  split_ifs
  · linear_combination (d ^ 2 * m.cos a.y ^ 2) * hx
  · linear_combination (d ^ 2 * m.cos a.y ^ 2) * hx

/-- C14: distance between the returned position and the returned target. For sine and
cosine functions with sin² + cos² = 1, after an `UpdateCamera` in free, orbital or third
person mode the squared distance between position and target is
d'²·(cos²(ay') + sin⁴(ay')), with d' the target distance and ay' the pitch after the
update; it is at most d'², and it is d'² when sin(ay')·cos(ay') = 0. -/
theorem updateCamera_sphere_radius (m : MathH R) (s : CameraState R) (h : Host R)
    (camera : Camera R) (hsc : ∀ x, m.sin x ^ 2 + m.cos x ^ 2 = 1)
    (hm : s.cameraMode = CAMERA_FREE ∨ s.cameraMode = CAMERA_ORBITAL
      ∨ s.cameraMode = CAMERA_THIRD_PERSON) :
    ((UpdateCamera m s h camera).2.2.position.x - (UpdateCamera m s h camera).2.2.target.x) ^ 2
        + ((UpdateCamera m s h camera).2.2.position.y
            - (UpdateCamera m s h camera).2.2.target.y) ^ 2
        + ((UpdateCamera m s h camera).2.2.position.z
            - (UpdateCamera m s h camera).2.2.target.z) ^ 2
      = (UpdateCamera m s h camera).1.cameraTargetDistance ^ 2
          * (m.cos (UpdateCamera m s h camera).1.cameraAngle.y ^ 2
              + m.sin (UpdateCamera m s h camera).1.cameraAngle.y ^ 4)
    ∧ (UpdateCamera m s h camera).1.cameraTargetDistance ^ 2
          * (m.cos (UpdateCamera m s h camera).1.cameraAngle.y ^ 2
              + m.sin (UpdateCamera m s h camera).1.cameraAngle.y ^ 4)
        ≤ (UpdateCamera m s h camera).1.cameraTargetDistance ^ 2
    ∧ (m.sin (UpdateCamera m s h camera).1.cameraAngle.y
          * m.cos (UpdateCamera m s h camera).1.cameraAngle.y = 0 →
        (UpdateCamera m s h camera).1.cameraTargetDistance ^ 2
          * (m.cos (UpdateCamera m s h camera).1.cameraAngle.y ^ 2
              + m.sin (UpdateCamera m s h camera).1.cameraAngle.y ^ 4)
        = (UpdateCamera m s h camera).1.cameraTargetDistance ^ 2) := by
  obtain ⟨c, hc⟩ := updateCamera_spherical_pose m s h camera hm
  have hy := hsc (UpdateCamera m s h camera).1.cameraAngle.y
  have key : m.cos (UpdateCamera m s h camera).1.cameraAngle.y ^ 2
      + m.sin (UpdateCamera m s h camera).1.cameraAngle.y ^ 4
      = 1 - (m.sin (UpdateCamera m s h camera).1.cameraAngle.y
          * m.cos (UpdateCamera m s h camera).1.cameraAngle.y) ^ 2 := by
    linear_combination (1 + m.sin (UpdateCamera m s h camera).1.cameraAngle.y ^ 2) * hy
  refine ⟨?_, ?_, fun h0 => ?_⟩
  · conv_lhs => rw [hc]
    exact cameraPositionUpdate_sq m hsc _ _ c
  · rw [key]
    nlinarith [sq_nonneg ((UpdateCamera m s h camera).1.cameraTargetDistance
      * (m.sin (UpdateCamera m s h camera).1.cameraAngle.y
          * m.cos (UpdateCamera m s h camera).1.cameraAngle.y))]
  · rw [key, h0]
    ring

/-- C14 for the real sine and cosine, on the free camera with the pointer at the screen
centre: the squared distance between position and target is at most the squared target
distance. -/
theorem updateCamera_sphere_radius_witness :
    (UpdateCamera ⟨Real.sin, Real.cos⟩ (centredState ℝ CAMERA_FREE) (restingHost ℝ)
          (viewCamera ℝ)).1.cameraTargetDistance ^ 2
        * (Real.cos (UpdateCamera ⟨Real.sin, Real.cos⟩ (centredState ℝ CAMERA_FREE)
              (restingHost ℝ) (viewCamera ℝ)).1.cameraAngle.y ^ 2
            + Real.sin (UpdateCamera ⟨Real.sin, Real.cos⟩ (centredState ℝ CAMERA_FREE)
              (restingHost ℝ) (viewCamera ℝ)).1.cameraAngle.y ^ 4)
      ≤ (UpdateCamera ⟨Real.sin, Real.cos⟩ (centredState ℝ CAMERA_FREE) (restingHost ℝ)
          (viewCamera ℝ)).1.cameraTargetDistance ^ 2 :=
  (updateCamera_sphere_radius ⟨Real.sin, Real.cos⟩ (centredState ℝ CAMERA_FREE)
    (restingHost ℝ) (viewCamera ℝ) (fun x => Real.sin_sq_add_cos_sq x) (Or.inl rfl)).2.1

end Spherical

/-! ## The free camera after `SetCameraMode(CAMERA_FREE)`, with the real sine and cosine -/

section RealFrames

theorem PI_lt_pi : PI ℝ < Real.pi := by
  unfold PI
  exact Real.pi_gt_d20

theorem PI_pos : (0 : ℝ) < PI ℝ := by
  unfold PI
  norm_num

/-- One frame of the free camera set up by `SetCameraMode(CAMERA_FREE)` on the standalone
host (pointer at the origin, nothing pressed): the angles stay (45·PI/180, −40·PI/180),
the distance stays 10, the target stays the origin and the position is recomputed. -/
theorem freeFrame_eval :
    (UpdateCamera ⟨Real.sin, Real.cos⟩ (freeState ℝ) (Host.standalone ℝ)
        (viewCamera ℝ)).1.cameraAngle = ⟨45 * DEG2RAD ℝ, -40 * DEG2RAD ℝ⟩
    ∧ (UpdateCamera ⟨Real.sin, Real.cos⟩ (freeState ℝ) (Host.standalone ℝ)
        (viewCamera ℝ)).1.cameraTargetDistance = 10
    ∧ (UpdateCamera ⟨Real.sin, Real.cos⟩ (freeState ℝ) (Host.standalone ℝ)
        (viewCamera ℝ)).2.2.target = ⟨0, 0, 0⟩
    ∧ (UpdateCamera ⟨Real.sin, Real.cos⟩ (freeState ℝ) (Host.standalone ℝ)
        (viewCamera ℝ)).2.2.position
      = ⟨Real.sin (45 * DEG2RAD ℝ) * 10 * Real.cos (-40 * DEG2RAD ℝ),
          Real.sin (-40 * DEG2RAD ℝ) * 10 * Real.sin (-40 * DEG2RAD ℝ),
          Real.cos (45 * DEG2RAD ℝ) * 10 * Real.cos (-40 * DEG2RAD ℝ)⟩ := by
  have hd : (0 : ℝ) < DEG2RAD ℝ := DEG2RAD_pos
  have hneg : -40 * DEG2RAD ℝ ≤ 0 := by linarith
  have z : (0.0 : ℝ) = 0 := by norm_num
  have hnd : ¬ DEG2RAD ℝ < 0 := not_lt.mpr hd.le
  simp only [UpdateCamera, updateCameraMouse, freeState, SetCameraMode, CameraState.initial,
    Host.standalone, viewCamera, GetMousePosition, GetMouseWheelMove, IsMouseButtonDown,
    ShowCursor, updateCameraFree, updateCameraFreeZoom_zero, updateCameraFreeInputs,
    IsKeyDown, focusToCenter, cameraPositionUpdate, z, hneg]
  norm_num [CAMERA_CUSTOM, CAMERA_FREE, CAMERA_FIRST_PERSON, CAMERA_ORBITAL, hnd]

theorem pitch40_sin_neg : Real.sin (-40 * DEG2RAD ℝ) < 0 := by
  have hP := PI_lt_pi
  have h0 := PI_pos
  apply Real.sin_neg_of_neg_of_neg_pi_lt
  · unfold DEG2RAD; linarith
  · unfold DEG2RAD; linarith

theorem pitch40_cos_pos : 0 < Real.cos (-40 * DEG2RAD ℝ) := by
  have hP := PI_lt_pi
  have h0 := PI_pos
  apply Real.cos_pos_of_mem_Ioo
  constructor
  · unfold DEG2RAD; linarith
  · unfold DEG2RAD; linarith

/-- C13, as stated, fails: on the free camera set up by `SetCameraMode(CAMERA_FREE)` the
pitch after one frame is −40·PI/180 < 0, and the returned `position.y` is
target.y + d·sin², above the target, not target.y + d·sign(ay)·sin(ay)² = target.y − d·sin². -/
theorem updateCamera_spherical_sign_counterexample :
    (UpdateCamera ⟨Real.sin, Real.cos⟩ (freeState ℝ) (Host.standalone ℝ)
        (viewCamera ℝ)).1.cameraAngle.y < 0
    ∧ (UpdateCamera ⟨Real.sin, Real.cos⟩ (freeState ℝ) (Host.standalone ℝ)
        (viewCamera ℝ)).2.2.position.y
      ≠ (UpdateCamera ⟨Real.sin, Real.cos⟩ (freeState ℝ) (Host.standalone ℝ)
        (viewCamera ℝ)).2.2.target.y
        + (UpdateCamera ⟨Real.sin, Real.cos⟩ (freeState ℝ) (Host.standalone ℝ)
        (viewCamera ℝ)).1.cameraTargetDistance
          * ((SignType.sign (UpdateCamera ⟨Real.sin, Real.cos⟩ (freeState ℝ) (Host.standalone ℝ)
        (viewCamera ℝ)).1.cameraAngle.y : ℝ)
              * Real.sin (UpdateCamera ⟨Real.sin, Real.cos⟩ (freeState ℝ) (Host.standalone ℝ)
        (viewCamera ℝ)).1.cameraAngle.y ^ 2) := by
  obtain ⟨ea, ed, et, ep⟩ := freeFrame_eval
  have hd : (0 : ℝ) < DEG2RAD ℝ := DEG2RAD_pos
  have hneg : -40 * DEG2RAD ℝ < 0 := by linarith
  have hs := pitch40_sin_neg
  rw [ea, ed, et, ep]
  refine ⟨hneg, ?_⟩
  simp only [sign_neg hneg, SignType.coe_neg_one]
  intro hEq
  have : Real.sin (-40 * DEG2RAD ℝ) * Real.sin (-40 * DEG2RAD ℝ) > 0 := mul_pos_of_neg_of_neg hs hs
  nlinarith

/-- C14, as stated, fails: on the free camera set up by `SetCameraMode(CAMERA_FREE)`
(pitch −40·PI/180, distance 10) the squared distance between the returned position and
the returned target is smaller than the squared target distance. -/
theorem updateCamera_sphere_radius_counterexample :
    ((UpdateCamera ⟨Real.sin, Real.cos⟩ (freeState ℝ) (Host.standalone ℝ)
        (viewCamera ℝ)).2.2.position.x
        - (UpdateCamera ⟨Real.sin, Real.cos⟩ (freeState ℝ) (Host.standalone ℝ)
        (viewCamera ℝ)).2.2.target.x) ^ 2
      + ((UpdateCamera ⟨Real.sin, Real.cos⟩ (freeState ℝ) (Host.standalone ℝ)
        (viewCamera ℝ)).2.2.position.y
        - (UpdateCamera ⟨Real.sin, Real.cos⟩ (freeState ℝ) (Host.standalone ℝ)
        (viewCamera ℝ)).2.2.target.y) ^ 2
      + ((UpdateCamera ⟨Real.sin, Real.cos⟩ (freeState ℝ) (Host.standalone ℝ)
        (viewCamera ℝ)).2.2.position.z
        - (UpdateCamera ⟨Real.sin, Real.cos⟩ (freeState ℝ) (Host.standalone ℝ)
        (viewCamera ℝ)).2.2.target.z) ^ 2
      < (UpdateCamera ⟨Real.sin, Real.cos⟩ (freeState ℝ) (Host.standalone ℝ)
        (viewCamera ℝ)).1.cameraTargetDistance ^ 2 := by
  obtain ⟨_, ed, et, ep⟩ := freeFrame_eval
  have hs := pitch40_sin_neg
  have hc := pitch40_cos_pos
  have h1 := Real.sin_sq_add_cos_sq (45 * DEG2RAD ℝ)
  have h2 := Real.sin_sq_add_cos_sq (-40 * DEG2RAD ℝ)
  have hsc : 0 < (Real.sin (-40 * DEG2RAD ℝ) * Real.cos (-40 * DEG2RAD ℝ)) ^ 2 :=
    sq_pos_of_ne_zero (mul_ne_zero hs.ne hc.ne')
  rw [ed, et, ep]
  simp only
  nlinarith

end RealFrames

/-! ## Injectivity of the position update -/

section RoundTrip

/-- The height term written by the position update, for real sine: `sin y·d·sin y` when
`y ≤ 0` and `−sin y·d·sin y` otherwise. At a fixed horizontal radius `d·cos y` it is
strictly decreasing in the pitch `y` on (−π/2, π/2). -/
theorem height_strictAnti {y1 y2 d1 d2 : ℝ} (h1 : -(Real.pi / 2) < y1) (h12 : y1 < y2)
    (h2 : y2 < Real.pi / 2) (hd1 : 0 < d1) (hd2 : 0 < d2)
    (hr : d1 * Real.cos y1 = d2 * Real.cos y2) :
    (if y2 ≤ 0 then Real.sin y2 * d2 * Real.sin y2 else -Real.sin y2 * d2 * Real.sin y2)
      < (if y1 ≤ 0 then Real.sin y1 * d1 * Real.sin y1 else -Real.sin y1 * d1 * Real.sin y1) := by
  have hpi := Real.pi_pos
  have hs : Real.sin y1 < Real.sin y2 :=
    Real.sin_lt_sin_of_lt_of_le_pi_div_two h1.le h2.le h12
  have hc1 : 0 < Real.cos y1 := Real.cos_pos_of_mem_Ioo ⟨h1, by linarith⟩
  have hc2 : 0 < Real.cos y2 := Real.cos_pos_of_mem_Ioo ⟨by linarith, h2⟩
  by_cases hy2 : y2 ≤ 0
  · have hy1 : y1 ≤ 0 := by linarith
    rw [if_pos hy2, if_pos hy1]
    have hs2 : Real.sin y2 ≤ 0 := Real.sin_nonpos_of_nonnpos_of_neg_pi_le hy2 (by linarith)
    have hc : Real.cos y1 < Real.cos y2 := by
      have := Real.cos_lt_cos_of_nonneg_of_le_pi_div_two (x := -y2) (y := -y1)
        (by linarith) (by linarith) (by linarith)
      simpa [Real.cos_neg] using this
    have hd : d2 < d1 := by
      by_contra hcon
      push_neg at hcon
      nlinarith [mul_pos hd1 hc1, mul_pos hd2 hc2]
    have hsq : Real.sin y2 * Real.sin y2 < Real.sin y1 * Real.sin y1 := by nlinarith
    have e1 := mul_lt_mul_of_pos_left hsq hd1
    have e2 := mul_nonneg (sub_nonneg.mpr hd.le) (mul_self_nonneg (Real.sin y2))
    nlinarith
  · push_neg at hy2
    rw [if_neg (not_le.mpr hy2)]
    have hs2 : 0 < Real.sin y2 := Real.sin_pos_of_pos_of_lt_pi hy2 (by linarith)
    by_cases hy1 : y1 ≤ 0
    · rw [if_pos hy1]
      nlinarith [mul_pos hd2 (mul_pos hs2 hs2), mul_nonneg hd1.le (mul_self_nonneg (Real.sin y1))]
    · push_neg at hy1
      rw [if_neg (not_le.mpr hy1)]
      have hs1 : 0 < Real.sin y1 := Real.sin_pos_of_pos_of_lt_pi hy1 (by linarith)
      have hc : Real.cos y2 < Real.cos y1 :=
        Real.cos_lt_cos_of_nonneg_of_le_pi_div_two hy1.le h2.le h12
      have hd : d1 < d2 := by
        by_contra hcon
        push_neg at hcon
        nlinarith [mul_pos hd1 hc1, mul_pos hd2 hc2]
      have hsq : Real.sin y1 * Real.sin y1 < Real.sin y2 * Real.sin y2 := by nlinarith
      have e1 := mul_lt_mul_of_pos_left hsq hd1
      have e2 := mul_nonneg (sub_nonneg.mpr hd.le) (mul_self_nonneg (Real.sin y2))
      nlinarith

/-- C15: spherical round-trip. For the real sine and cosine, the map from
(`cameraAngle.x`, `cameraAngle.y`, `cameraTargetDistance`) to the position written by the
position update is injective on yaw in (−π, π], pitch in [−85·π/180, 85·π/180] and
distance > 0, for every target: two such triples that give the same position are equal.
(The code's constant `PI` is smaller than π, so its clamp range is included.) -/
theorem cameraPositionUpdate_injective (a b : Vector2 ℝ) (d e : ℝ) (c : Camera ℝ)
    (hax : -Real.pi < a.x ∧ a.x ≤ Real.pi) (hbx : -Real.pi < b.x ∧ b.x ≤ Real.pi)
    (hay : -85 * Real.pi / 180 ≤ a.y ∧ a.y ≤ 85 * Real.pi / 180)
    (hby : -85 * Real.pi / 180 ≤ b.y ∧ b.y ≤ 85 * Real.pi / 180)
    (hd : 0 < d) (he : 0 < e)
    (hpos : (cameraPositionUpdate ⟨Real.sin, Real.cos⟩ a d c).position
      = (cameraPositionUpdate ⟨Real.sin, Real.cos⟩ b e c).position) :
    a = b ∧ d = e := by
  have hpi := Real.pi_pos
  have z : (0.0 : ℝ) = 0 := by norm_num
  have hx := congrArg Vector3.x hpos
  have hy := congrArg Vector3.y hpos
  have hz := congrArg Vector3.z hpos
  simp only [cameraPositionUpdate, z] at hx hy hz
  have ha1 : -(Real.pi / 2) < a.y := by linarith [hay.1]
  have ha2 : a.y < Real.pi / 2 := by linarith [hay.2]
  have hb1 : -(Real.pi / 2) < b.y := by linarith [hby.1]
  have hb2 : b.y < Real.pi / 2 := by linarith [hby.2]
  have hca : 0 < Real.cos a.y := Real.cos_pos_of_mem_Ioo ⟨ha1, ha2⟩
  have hcb : 0 < Real.cos b.y := Real.cos_pos_of_mem_Ioo ⟨hb1, hb2⟩
  have hra : 0 < d * Real.cos a.y := mul_pos hd hca
  have hrb : 0 < e * Real.cos b.y := mul_pos he hcb
  have sa := Real.sin_sq_add_cos_sq a.x
  have sb := Real.sin_sq_add_cos_sq b.x
  -- the horizontal radii agree
  have hx1 : Real.sin a.x * (d * Real.cos a.y) = Real.sin b.x * (e * Real.cos b.y) := by
    linarith
  have hz1 : Real.cos a.x * (d * Real.cos a.y) = Real.cos b.x * (e * Real.cos b.y) := by
    linarith
  have hsq : (d * Real.cos a.y) ^ 2 = (e * Real.cos b.y) ^ 2 := by
    have e1 : (d * Real.cos a.y) ^ 2
        = (Real.sin a.x * (d * Real.cos a.y)) ^ 2 + (Real.cos a.x * (d * Real.cos a.y)) ^ 2 := by
      linear_combination (-(d * Real.cos a.y) ^ 2) * sa
    have e2 : (e * Real.cos b.y) ^ 2
        = (Real.sin b.x * (e * Real.cos b.y)) ^ 2 + (Real.cos b.x * (e * Real.cos b.y)) ^ 2 := by
      linear_combination (-(e * Real.cos b.y) ^ 2) * sb
    rw [e1, e2, hx1, hz1]
  have hr : d * Real.cos a.y = e * Real.cos b.y := by
    have h0 : (d * Real.cos a.y - e * Real.cos b.y) * (d * Real.cos a.y + e * Real.cos b.y)
        = 0 := by
      linear_combination hsq
    rcases mul_eq_zero.mp h0 with h1 | h1
    · linarith
    · linarith
  -- the yaws agree
  have hsin : Real.sin a.x = Real.sin b.x := by
    rw [← hr] at hx1
    exact mul_right_cancel₀ hra.ne' hx1
  have hcos : Real.cos a.x = Real.cos b.x := by
    rw [← hr] at hz1
    exact mul_right_cancel₀ hra.ne' hz1
  have hyaw : a.x = b.x := by
    have hA := Real.Angle.cos_sin_inj hcos hsin
    have t1 := Real.Angle.toReal_coe_eq_self_iff.mpr hax
    have t2 := Real.Angle.toReal_coe_eq_self_iff.mpr hbx
    rw [← t1, ← t2, hA]
  -- the pitches agree
  have hpitch : a.y = b.y := by
    rcases lt_trichotomy a.y b.y with hlt | heq | hgt
    · have := height_strictAnti ha1 hlt hb2 hd he hr
      split_ifs at hy this <;> linarith
    · exact heq
    · have := height_strictAnti hb1 hgt ha2 he hd hr.symm
      split_ifs at hy this <;> linarith
  have hdist : d = e := by
    rw [hpitch] at hr
    exact mul_right_cancel₀ hcb.ne' hr
  refine ⟨?_, hdist⟩
  cases a
  cases b
  simp only at hyaw hpitch
  rw [hyaw, hpitch]

/-- C15 on the angles set by `SetCameraMode(CAMERA_FREE)`, (45·PI/180, −40·PI/180), and
the distance 10: they lie in the domain, and a triple with the same position is equal. -/
theorem cameraPositionUpdate_injective_witness :
    (-85 * Real.pi / 180 ≤ -40 * DEG2RAD ℝ ∧ -40 * DEG2RAD ℝ ≤ 85 * Real.pi / 180)
      ∧ ((⟨45 * DEG2RAD ℝ, -40 * DEG2RAD ℝ⟩ : Vector2 ℝ) = ⟨45 * DEG2RAD ℝ, -40 * DEG2RAD ℝ⟩
          ∧ (10 : ℝ) = 10) :=
  have hP := PI_lt_pi
  have h0 := PI_pos
  have hy : -85 * Real.pi / 180 ≤ -40 * DEG2RAD ℝ ∧ -40 * DEG2RAD ℝ ≤ 85 * Real.pi / 180 := by
    unfold DEG2RAD
    constructor <;> linarith
  have hx : -Real.pi < 45 * DEG2RAD ℝ ∧ 45 * DEG2RAD ℝ ≤ Real.pi := by
    unfold DEG2RAD
    constructor <;> linarith
  ⟨hy, cameraPositionUpdate_injective ⟨45 * DEG2RAD ℝ, -40 * DEG2RAD ℝ⟩
    ⟨45 * DEG2RAD ℝ, -40 * DEG2RAD ℝ⟩ 10 10 (viewCamera ℝ) hx hx hy hy (by norm_num)
    (by norm_num) rfl⟩

end RoundTrip

/-! ## First and third person cameras -/

section Person
variable {R : Type} [LinearOrderedField R]

/-- The flag `isMoving` is set exactly when one of the four horizontal move keys is down. -/
theorem updateCameraKeys_isMoving (m : MathH R) (s : CameraState R) (h : Host R)
    (camera : Camera R) :
    (updateCameraKeys m s h camera).2
      = (IsKeyDown h (s.cameraMoveControl MOVE_FRONT)
          || IsKeyDown h (s.cameraMoveControl MOVE_BACK)
          || IsKeyDown h (s.cameraMoveControl MOVE_LEFT)
          || IsKeyDown h (s.cameraMoveControl MOVE_RIGHT)) := by
  unfold updateCameraKeys
  cases IsKeyDown h (s.cameraMoveControl MOVE_FRONT) <;>
    cases IsKeyDown h (s.cameraMoveControl MOVE_BACK) <;>
    cases IsKeyDown h (s.cameraMoveControl MOVE_LEFT) <;>
    cases IsKeyDown h (s.cameraMoveControl MOVE_RIGHT) <;> simp

/-- C16: the move counter changes only on moving frames. `UpdateCamera` increases
`cameraMoveCounter` by exactly 1 if the mode is first person and at least one of the
front, back, left or right move keys is down, and leaves it unchanged otherwise (any other
mode, or none of these four keys down). -/
theorem updateCamera_moveCounter (m : MathH R) (s : CameraState R) (h : Host R)
    (camera : Camera R) :
    ((s.cameraMode = CAMERA_FIRST_PERSON
        ∧ (IsKeyDown h (s.cameraMoveControl MOVE_FRONT) = true
          ∨ IsKeyDown h (s.cameraMoveControl MOVE_BACK) = true
          ∨ IsKeyDown h (s.cameraMoveControl MOVE_LEFT) = true
          ∨ IsKeyDown h (s.cameraMoveControl MOVE_RIGHT) = true)) →
      (UpdateCamera m s h camera).1.cameraMoveCounter = s.cameraMoveCounter + 1)
    ∧ (¬ (s.cameraMode = CAMERA_FIRST_PERSON
        ∧ (IsKeyDown h (s.cameraMoveControl MOVE_FRONT) = true
          ∨ IsKeyDown h (s.cameraMoveControl MOVE_BACK) = true
          ∨ IsKeyDown h (s.cameraMoveControl MOVE_LEFT) = true
          ∨ IsKeyDown h (s.cameraMoveControl MOVE_RIGHT) = true)) →
      (UpdateCamera m s h camera).1.cameraMoveCounter = s.cameraMoveCounter) := by
  have e := updateCameraMouse_cameraMode s h
  have ec := updateCameraMouse_cameraMoveCounter s h
  have ek := (updateCameraMouse_controls s h).1
  have ekd := updateCameraMouse_keyDown s h
  have h3 : ¬ (CAMERA_FIRST_PERSON = CAMERA_FREE) := by decide
  have h4 : ¬ (CAMERA_FIRST_PERSON = CAMERA_ORBITAL) := by decide
  have h5 : ¬ (CAMERA_FIRST_PERSON = CAMERA_THIRD_PERSON) := by decide
  have mv := updateCameraKeys_isMoving m (updateCameraMouse s h).1 (updateCameraMouse s h).2
    camera
  simp only [IsKeyDown, ek, ekd] at mv
  by_cases hm : s.cameraMode = CAMERA_FIRST_PERSON
  · have step : (UpdateCamera m s h camera).1.cameraMoveCounter
        = if (h.keyDown (s.cameraMoveControl MOVE_FRONT)
            || h.keyDown (s.cameraMoveControl MOVE_BACK)
            || h.keyDown (s.cameraMoveControl MOVE_LEFT)
            || h.keyDown (s.cameraMoveControl MOVE_RIGHT)) = true
          then s.cameraMoveCounter + 1 else s.cameraMoveCounter := by
      simp only [UpdateCamera, e, hm, h3, h4, h5, true_or, if_true, if_false,
        updateCameraFirstPerson, mv, ec]
    rw [step]
    simp only [IsKeyDown, hm, true_and, Bool.or_eq_true]
    constructor
    · intro hk
      rw [if_pos (by tauto)]
    · intro hk
      rw [if_neg (by tauto)]
  · refine ⟨fun hk => absurd hk.1 hm, fun _ => ?_⟩
    unfold UpdateCamera
    simp only [e]
    split_ifs with c1 c2 c3 c4
    · simp only [updateCameraFree]
      rw [(updateCameraFreeInputs_controls m _ _ _ _).2.2.2.2.2.2,
        (updateCameraFreeZoom_controls _ _ _).2.2.2.2.2.2, ec]
    · exact ec
    · exact ec
    · rcases c3 with c3 | c3
      · exact absurd c3 hm
      · exact absurd c3 c4
    · exact ec

/-- C16 on a walking frame (front key down) in first person mode, and on the same frame in
third person mode: the counter goes from 0 to 1, respectively stays 0. -/
theorem updateCamera_moveCounter_witness :
    (UpdateCamera ⟨fun _ => (0 : ℚ), fun _ => 1⟩ (centredState ℚ CAMERA_FIRST_PERSON)
        (walkingHost ℚ) (originCamera ℚ)).1.cameraMoveCounter
      = (centredState ℚ CAMERA_FIRST_PERSON).cameraMoveCounter + 1
    ∧ (UpdateCamera ⟨fun _ => (0 : ℚ), fun _ => 1⟩ (centredState ℚ CAMERA_THIRD_PERSON)
        (walkingHost ℚ) (originCamera ℚ)).1.cameraMoveCounter
      = (centredState ℚ CAMERA_THIRD_PERSON).cameraMoveCounter :=
  ⟨(updateCamera_moveCounter ⟨fun _ => (0 : ℚ), fun _ => 1⟩
      (centredState ℚ CAMERA_FIRST_PERSON) (walkingHost ℚ) (originCamera ℚ)).1
      ⟨rfl, Or.inl rfl⟩,
   (updateCamera_moveCounter ⟨fun _ => (0 : ℚ), fun _ => 1⟩
      (centredState ℚ CAMERA_THIRD_PERSON) (walkingHost ℚ) (originCamera ℚ)).2
      (fun hk => absurd hk.1 (by decide))⟩

/-- C17: `SetCameraMoveControls(front, back, left, right, up, down)` binds each argument to
its own direction: afterwards the key table is [front, left, back, right, up, down] in the
slot order `MOVE_FRONT` … `MOVE_DOWN`, and nothing else in the state is changed; so in the
keyboard stage of the first and third person update, the key passed as `back` alone moves
the position backward, by (sin ax, −sin ay, cos ax)/20, and the key passed as `left` alone
moves it leftward, by (−cos ax, 0, sin ax)/20. -/
theorem setCameraMoveControls_binds (s : CameraState R) (frontKey backKey leftKey rightKey
    upKey downKey : Int) :
    (SetCameraMoveControls s frontKey backKey leftKey rightKey upKey downKey).cameraMoveControl
        = ![frontKey, leftKey, backKey, rightKey, upKey, downKey]
    ∧ SetCameraMoveControls s frontKey backKey leftKey rightKey upKey downKey
        = { s with cameraMoveControl := ![frontKey, leftKey, backKey, rightKey, upKey, downKey] }
    ∧ (∀ (m : MathH R) (h : Host R) (camera : Camera R),
        IsKeyDown h backKey = true → IsKeyDown h frontKey = false →
        IsKeyDown h leftKey = false → IsKeyDown h rightKey = false →
        IsKeyDown h upKey = false → IsKeyDown h downKey = false →
        (updateCameraKeys m
            (SetCameraMoveControls s frontKey backKey leftKey rightKey upKey downKey)
            h camera).1.position
          = ⟨camera.position.x + m.sin s.cameraAngle.x / 20,
              camera.position.y - m.sin s.cameraAngle.y / 20,
              camera.position.z + m.cos s.cameraAngle.x / 20⟩)
    ∧ (∀ (m : MathH R) (h : Host R) (camera : Camera R),
        IsKeyDown h leftKey = true → IsKeyDown h frontKey = false →
        IsKeyDown h backKey = false → IsKeyDown h rightKey = false →
        IsKeyDown h upKey = false → IsKeyDown h downKey = false →
        (updateCameraKeys m
            (SetCameraMoveControls s frontKey backKey leftKey rightKey upKey downKey)
            h camera).1.position
          = ⟨camera.position.x - m.cos s.cameraAngle.x / 20,
              camera.position.y,
              camera.position.z + m.sin s.cameraAngle.x / 20⟩) := by
  have tbl : (SetCameraMoveControls s frontKey backKey leftKey rightKey upKey
      downKey).cameraMoveControl = ![frontKey, leftKey, backKey, rightKey, upKey, downKey] := by
    funext i
    fin_cases i <;> rfl
  have k0 : (![frontKey, leftKey, backKey, rightKey, upKey, downKey] : Fin 6 → Int) MOVE_FRONT
      = frontKey := rfl
  have k1 : (![frontKey, leftKey, backKey, rightKey, upKey, downKey] : Fin 6 → Int) MOVE_LEFT
      = leftKey := rfl
  have k2 : (![frontKey, leftKey, backKey, rightKey, upKey, downKey] : Fin 6 → Int) MOVE_BACK
      = backKey := rfl
  have k3 : (![frontKey, leftKey, backKey, rightKey, upKey, downKey] : Fin 6 → Int) MOVE_RIGHT
      = rightKey := rfl
  have k4 : (![frontKey, leftKey, backKey, rightKey, upKey, downKey] : Fin 6 → Int) MOVE_UP
      = upKey := rfl
  have k5 : (![frontKey, leftKey, backKey, rightKey, upKey, downKey] : Fin 6 → Int) MOVE_DOWN
      = downKey := rfl
  have z : (20.0 : R) = 20 := by norm_num
  have st : SetCameraMoveControls s frontKey backKey leftKey rightKey upKey downKey
      = { s with cameraMoveControl :=
            ![frontKey, leftKey, backKey, rightKey, upKey, downKey] } := by
    have := tbl
    simp only [SetCameraMoveControls] at this ⊢
    rw [this]
  refine ⟨tbl, st, ?_, ?_⟩
  · intro m h camera hb hf hl hr hu hd
    rw [st]
    simp only [updateCameraKeys, k0, k1, k2, k3, k4, k5, hb, hf, hl, hr, hu, hd,
      Bool.false_eq_true, if_true, if_false, PLAYER_MOVEMENT_DIVIDER, z]
  · intro m h camera hl hf hb hr hu hd
    rw [st]
    simp only [updateCameraKeys, k0, k1, k2, k3, k4, k5, hb, hf, hl, hr, hu, hd,
      Bool.false_eq_true, if_true, if_false, PLAYER_MOVEMENT_DIVIDER, z]

/-- C17 with the arrow keys of raylib (up 265, down 264, left 263, right 262) and page
up/down (266, 267): the table is [265, 263, 264, 262, 266, 267]. -/
theorem setCameraMoveControls_binds_witness :
    (SetCameraMoveControls (CameraState.initial ℚ) 265 264 263 262 266 267).cameraMoveControl
      = ![265, 263, 264, 262, 266, 267]
    ∧ (updateCameraKeys ⟨fun _ => (0 : ℚ), fun _ => 1⟩
          (SetCameraMoveControls (CameraState.initial ℚ) 265 264 263 262 266 267)
          { Host.standalone ℚ with keyDown := fun key => decide (key = 264) }
          (originCamera ℚ)).1.position
        = ⟨(originCamera ℚ).position.x + 0 / 20, (originCamera ℚ).position.y - 0 / 20,
            (originCamera ℚ).position.z + 1 / 20⟩ :=
  ⟨(setCameraMoveControls_binds (CameraState.initial ℚ) 265 264 263 262 266 267).1,
   (setCameraMoveControls_binds (CameraState.initial ℚ) 265 264 263 262 266 267).2.2.1
      ⟨fun _ => (0 : ℚ), fun _ => 1⟩ { Host.standalone ℚ with keyDown := fun key => decide (key = 264) }
      (originCamera ℚ) rfl rfl rfl rfl rfl rfl⟩


/-- C18: `SetCameraMouseSensitivity(raw)` stores `raw/10000` as the mouse sensitivity and
changes nothing else; a following `UpdateCamera` in first or third person mode whose
accumulated mouse variation is (dx, dy) sets `cameraAngle.x` to
`cameraAngle.x − dx·raw/10000` and `cameraAngle.y` to the clamp of
`cameraAngle.y − dy·raw/10000` (to [−85·PI/180, 85·PI/180] in first person mode, to
[−85·PI/180, 5·PI/180] in third person mode). -/
theorem setCameraMouseSensitivity_effect (m : MathH R) (s : CameraState R) (raw : R)
    (h : Host R) (camera : Camera R) :
    SetCameraMouseSensitivity s raw = { s with cameraMouseSensitivity := raw / 10000 }
    ∧ ((s.cameraMode = CAMERA_FIRST_PERSON ∨ s.cameraMode = CAMERA_THIRD_PERSON) →
        (UpdateCamera m (SetCameraMouseSensitivity s raw) h camera).1.cameraAngle.x
          = s.cameraAngle.x
            - (UpdateCamera m (SetCameraMouseSensitivity s raw) h
                camera).1.cameraMouseVariation.x * raw / 10000)
    ∧ (s.cameraMode = CAMERA_FIRST_PERSON →
        (UpdateCamera m (SetCameraMouseSensitivity s raw) h camera).1.cameraAngle.y
          = (if s.cameraAngle.y
                - (UpdateCamera m (SetCameraMouseSensitivity s raw) h
                    camera).1.cameraMouseVariation.y * raw / 10000 > 85 * PI R / 180
              then 85 * PI R / 180
              else if s.cameraAngle.y
                - (UpdateCamera m (SetCameraMouseSensitivity s raw) h
                    camera).1.cameraMouseVariation.y * raw / 10000 < -85 * PI R / 180
              then -85 * PI R / 180
              else s.cameraAngle.y
                - (UpdateCamera m (SetCameraMouseSensitivity s raw) h
                    camera).1.cameraMouseVariation.y * raw / 10000))
    ∧ (s.cameraMode = CAMERA_THIRD_PERSON →
        (UpdateCamera m (SetCameraMouseSensitivity s raw) h camera).1.cameraAngle.y
          = (if s.cameraAngle.y
                - (UpdateCamera m (SetCameraMouseSensitivity s raw) h
                    camera).1.cameraMouseVariation.y * raw / 10000 > 5 * PI R / 180
              then 5 * PI R / 180
              else if s.cameraAngle.y
                - (UpdateCamera m (SetCameraMouseSensitivity s raw) h
                    camera).1.cameraMouseVariation.y * raw / 10000 < -85 * PI R / 180
              then -85 * PI R / 180
              else s.cameraAngle.y
                - (UpdateCamera m (SetCameraMouseSensitivity s raw) h
                    camera).1.cameraMouseVariation.y * raw / 10000)) := by
  have z : (10000.0 : R) = 10000 := by norm_num
  have st : SetCameraMouseSensitivity s raw = { s with cameraMouseSensitivity := raw / 10000 } := by
    simp only [SetCameraMouseSensitivity, z]
  have hv := (updateCamera_mouse m (SetCameraMouseSensitivity s raw) h camera).1
  have e := updateCameraMouse_cameraMode (SetCameraMouseSensitivity s raw) h
  have ea := updateCameraMouse_cameraAngle (SetCameraMouseSensitivity s raw) h
  have es := (updateCameraMouse_controls (SetCameraMouseSensitivity s raw) h).2.2.2.2
  have em : (SetCameraMouseSensitivity s raw).cameraMode = s.cameraMode := rfl
  have eang : (SetCameraMouseSensitivity s raw).cameraAngle = s.cameraAngle := rfl
  have esen : (SetCameraMouseSensitivity s raw).cameraMouseSensitivity = raw / 10000 := by
    rw [st]
  rw [em] at e
  rw [eang] at ea
  rw [esen] at es
  have h1 : ¬ (CAMERA_THIRD_PERSON = CAMERA_FREE) := by decide
  have h2 : ¬ (CAMERA_THIRD_PERSON = CAMERA_ORBITAL) := by decide
  have h3 : ¬ (CAMERA_FIRST_PERSON = CAMERA_FREE) := by decide
  have h4 : ¬ (CAMERA_FIRST_PERSON = CAMERA_ORBITAL) := by decide
  have h5 : ¬ (CAMERA_FIRST_PERSON = CAMERA_THIRD_PERSON) := by decide
  have c1 : (85.0 : R) * DEG2RAD R = 85 * PI R / 180 := by unfold DEG2RAD; ring
  have c2 : (-85.0 : R) * DEG2RAD R = -85 * PI R / 180 := by unfold DEG2RAD; ring
  have c3 : (5.0 : R) * DEG2RAD R = 5 * PI R / 180 := by unfold DEG2RAD; ring
  have lin : ∀ a v : R, a + v * -(raw / 10000) = a - v * raw / 10000 := by
    intro a v
    ring
  rw [hv]
  refine ⟨st, ?_, ?_, ?_⟩
  · rintro (hm | hm)
    · simp only [UpdateCamera, e, hm, h3, h4, h5, true_or, if_true, if_false,
        updateCameraFirstPerson, ea, es, lin]
    · simp only [UpdateCamera, e, hm, h1, h2, or_true, if_true, if_false,
        updateCameraThirdPerson, ea, es, lin]
  · intro hm
    simp only [UpdateCamera, e, hm, h3, h4, h5, true_or, if_true, if_false,
      updateCameraFirstPerson, ea, es, lin, CAMERA_FIRST_PERSON_MIN_CLAMP,
      CAMERA_FIRST_PERSON_MAX_CLAMP, c1, c2]
  · intro hm
    simp only [UpdateCamera, e, hm, h1, h2, or_true, if_true, if_false,
      updateCameraThirdPerson, ea, es, lin, CAMERA_THIRD_PERSON_MIN_CLAMP,
      CAMERA_THIRD_PERSON_MAX_CLAMP, c3, c2]

/-- C18 in first person mode with a raw sensitivity of 30 and the pointer moved 10 pixels
to the right of its last position. -/
theorem setCameraMouseSensitivity_effect_witness :
    (UpdateCamera ⟨fun _ => (0 : ℚ), fun _ => 1⟩
        (SetCameraMouseSensitivity (centredState ℚ CAMERA_FIRST_PERSON) 30)
        { restingHost ℚ with mousePosition := ⟨650, 360⟩ } (originCamera ℚ)).1.cameraAngle.x
      = (centredState ℚ CAMERA_FIRST_PERSON).cameraAngle.x
        - (UpdateCamera ⟨fun _ => (0 : ℚ), fun _ => 1⟩
            (SetCameraMouseSensitivity (centredState ℚ CAMERA_FIRST_PERSON) 30)
            { restingHost ℚ with mousePosition := ⟨650, 360⟩ }
            (originCamera ℚ)).1.cameraMouseVariation.x * 30 / 10000 :=
  (setCameraMouseSensitivity_effect ⟨fun _ => (0 : ℚ), fun _ => 1⟩
    (centredState ℚ CAMERA_FIRST_PERSON) 30 { restingHost ℚ with mousePosition := ⟨650, 360⟩ }
    (originCamera ℚ)).2.1 (Or.inl rfl)

end Person

/-! ## Panning and zooming the free camera -/

section FreePan
variable {R : Type} [LinearOrderedField R]

/-- In free mode the mouse stage always accumulates the mouse variation. -/
theorem updateCameraMouse_free (s : CameraState R) (h : Host R)
    (hm : s.cameraMode = CAMERA_FREE) :
    (updateCameraMouse s h).1.cameraMouseVariation
      = ⟨h.mousePosition.x - s.cameraMousePosition.x,
          h.mousePosition.y - s.cameraMousePosition.y⟩ := by
  simp [updateCameraMouse, hm, GetMousePosition]

/-- A free camera frame with the pan button down, the alt key up, no wheel motion and the
recenter key up: angles and distance are kept, the target is panned, and the position is
recomputed around the panned target. -/
theorem updateCamera_free_pan (m : MathH R) (s : CameraState R) (h : Host R)
    (camera : Camera R) (hm : s.cameraMode = CAMERA_FREE) (hw : GetMouseWheelMove h = 0)
    (ha : IsKeyDown h s.cameraAltControlKey = false)
    (hp : IsMouseButtonDown h s.cameraPanControlKey = true)
    (hz : IsKeyDown h 90 = false) :
    (UpdateCamera m s h camera).1.cameraAngle = s.cameraAngle
      ∧ (UpdateCamera m s h camera).1.cameraTargetDistance = s.cameraTargetDistance
      ∧ (UpdateCamera m s h camera).2.2
        = cameraPositionUpdate m s.cameraAngle s.cameraTargetDistance
            { camera with target :=
              ⟨camera.target.x
                + (((UpdateCamera m s h camera).1.cameraMouseVariation.x
                      * -CAMERA_FREE_MOUSE_SENSITIVITY R) * m.cos s.cameraAngle.x
                    + ((UpdateCamera m s h camera).1.cameraMouseVariation.y
                      * CAMERA_FREE_MOUSE_SENSITIVITY R) * m.sin s.cameraAngle.x
                      * m.sin s.cameraAngle.y)
                  * (s.cameraTargetDistance / CAMERA_FREE_PANNING_DIVIDER R),
               camera.target.y
                + (((UpdateCamera m s h camera).1.cameraMouseVariation.y
                      * CAMERA_FREE_MOUSE_SENSITIVITY R) * m.cos s.cameraAngle.y)
                  * (s.cameraTargetDistance / CAMERA_FREE_PANNING_DIVIDER R),
               camera.target.z
                + (((UpdateCamera m s h camera).1.cameraMouseVariation.x
                      * CAMERA_FREE_MOUSE_SENSITIVITY R) * m.sin s.cameraAngle.x
                    + ((UpdateCamera m s h camera).1.cameraMouseVariation.y
                      * CAMERA_FREE_MOUSE_SENSITIVITY R) * m.cos s.cameraAngle.x
                      * m.sin s.cameraAngle.y)
                  * (s.cameraTargetDistance / CAMERA_FREE_PANNING_DIVIDER R)⟩ } := by
  have ha1 : IsKeyDown (updateCameraMouse s h).2 (updateCameraMouse s h).1.cameraAltControlKey
      = false := by
    simpa [IsKeyDown, updateCameraMouse_keyDown, (updateCameraMouse_controls s h).2.2.1] using ha
  have hz1 : IsKeyDown (updateCameraMouse s h).2 90 = false := by
    simpa [IsKeyDown, updateCameraMouse_keyDown] using hz
  rw [(updateCamera_mouse m s h camera).1]
  rw [updateCamera_free_eq m s h camera hm, hw, hp]
  simp only [updateCameraFree, updateCameraFreeZoom_zero, updateCameraFreeInputs, ha1, hz1,
    focusToCenter, Bool.false_eq_true, if_false, if_true, updateCameraMouse_cameraAngle,
    updateCameraMouse_cameraTargetDistance, and_self]

/-- The dot product of the panning displacement with the offset written by the position
update. -/
theorem pan_dot (m : MathH R) (hsc : ∀ x, m.sin x ^ 2 + m.cos x ^ 2 = 1) (a : Vector2 R)
    (d vx vy : R) (t : Vector3 R) :
    ((t.x + ((vx * -CAMERA_FREE_MOUSE_SENSITIVITY R) * m.cos a.x
            + (vy * CAMERA_FREE_MOUSE_SENSITIVITY R) * m.sin a.x * m.sin a.y)
          * (d / CAMERA_FREE_PANNING_DIVIDER R) - t.x)
        * (m.sin a.x * d * m.cos a.y)
      + (t.y + ((vy * CAMERA_FREE_MOUSE_SENSITIVITY R) * m.cos a.y)
          * (d / CAMERA_FREE_PANNING_DIVIDER R) - t.y)
        * ((if a.y ≤ 0 then 1 else -1) * (m.sin a.y * d * m.sin a.y))
      + (t.z + ((vx * CAMERA_FREE_MOUSE_SENSITIVITY R) * m.sin a.x
            + (vy * CAMERA_FREE_MOUSE_SENSITIVITY R) * m.cos a.x * m.sin a.y)
          * (d / CAMERA_FREE_PANNING_DIVIDER R) - t.z)
        * (m.cos a.x * d * m.cos a.y))
      = 0.01 * vy * (d / 5.1) * d * m.cos a.y * m.sin a.y
          * (1 + (if a.y ≤ 0 then 1 else -1) * m.sin a.y) := by
  have hx := hsc a.x
  simp only [CAMERA_FREE_MOUSE_SENSITIVITY, CAMERA_FREE_PANNING_DIVIDER]
  linear_combination (0.01 * vy * (d / 5.1) * d * m.cos a.y * m.sin a.y) * hx

/-- The value of the dot product of the target displacement with the resulting view offset
on a panning frame of the free camera. -/
theorem free_pan_dot_value (m : MathH R) (s : CameraState R) (h : Host R)
    (camera : Camera R) (hsc : ∀ x, m.sin x ^ 2 + m.cos x ^ 2 = 1)
    (hm : s.cameraMode = CAMERA_FREE) (hw : GetMouseWheelMove h = 0)
    (ha : IsKeyDown h s.cameraAltControlKey = false)
    (hp : IsMouseButtonDown h s.cameraPanControlKey = true)
    (hz : IsKeyDown h 90 = false) :
    ((UpdateCamera m s h camera).2.2.target.x - camera.target.x)
          * ((UpdateCamera m s h camera).2.2.position.x
              - (UpdateCamera m s h camera).2.2.target.x)
        + ((UpdateCamera m s h camera).2.2.target.y - camera.target.y)
          * ((UpdateCamera m s h camera).2.2.position.y
              - (UpdateCamera m s h camera).2.2.target.y)
        + ((UpdateCamera m s h camera).2.2.target.z - camera.target.z)
          * ((UpdateCamera m s h camera).2.2.position.z
              - (UpdateCamera m s h camera).2.2.target.z)
      = 0.01 * (UpdateCamera m s h camera).1.cameraMouseVariation.y
          * (s.cameraTargetDistance / 5.1) * s.cameraTargetDistance
          * m.cos s.cameraAngle.y * m.sin s.cameraAngle.y
          * (1 + (if s.cameraAngle.y ≤ 0 then 1 else -1) * m.sin s.cameraAngle.y) := by
  obtain ⟨_, _, hc⟩ := updateCamera_free_pan m s h camera hm hw ha hp hz
  have z : (0.0 : R) = 0 := by norm_num
  have key := pan_dot m hsc s.cameraAngle s.cameraTargetDistance
    (UpdateCamera m s h camera).1.cameraMouseVariation.x
    (UpdateCamera m s h camera).1.cameraMouseVariation.y camera.target
  rw [← key]
  conv_lhs => rw [hc]
  simp only [cameraPositionUpdate, z]
  split_ifs <;> ring

/-- C19: free camera panning against the view offset. For sine and cosine functions with
sin² + cos² = 1, in free mode with the pan button down, the alt key up, no wheel motion
and the recenter key up, the dot product of the target displacement (target' − target)
with the resulting view offset (position' − target') is
0.01·dy·(d/5.1)·d·cos(ay)·sin(ay)·(1 + σ·sin(ay)), where (dx, dy) is the accumulated
mouse variation, d the target distance, ay the pitch and σ = +1 for ay ≤ 0, −1 for
ay > 0; in particular the displacement is perpendicular to the view offset when dy = 0
(a horizontal pan). -/
theorem updateCamera_free_pan_dot (m : MathH R) (s : CameraState R) (h : Host R)
    (camera : Camera R) (hsc : ∀ x, m.sin x ^ 2 + m.cos x ^ 2 = 1)
    (hm : s.cameraMode = CAMERA_FREE) (hw : GetMouseWheelMove h = 0)
    (ha : IsKeyDown h s.cameraAltControlKey = false)
    (hp : IsMouseButtonDown h s.cameraPanControlKey = true)
    (hz : IsKeyDown h 90 = false) :
    ((UpdateCamera m s h camera).2.2.target.x - camera.target.x)
          * ((UpdateCamera m s h camera).2.2.position.x
              - (UpdateCamera m s h camera).2.2.target.x)
        + ((UpdateCamera m s h camera).2.2.target.y - camera.target.y)
          * ((UpdateCamera m s h camera).2.2.position.y
              - (UpdateCamera m s h camera).2.2.target.y)
        + ((UpdateCamera m s h camera).2.2.target.z - camera.target.z)
          * ((UpdateCamera m s h camera).2.2.position.z
              - (UpdateCamera m s h camera).2.2.target.z)
      = 0.01 * (UpdateCamera m s h camera).1.cameraMouseVariation.y
          * (s.cameraTargetDistance / 5.1) * s.cameraTargetDistance
          * m.cos s.cameraAngle.y * m.sin s.cameraAngle.y
          * (1 + (if s.cameraAngle.y ≤ 0 then 1 else -1) * m.sin s.cameraAngle.y)
    ∧ ((UpdateCamera m s h camera).1.cameraMouseVariation.y = 0 →
        ((UpdateCamera m s h camera).2.2.target.x - camera.target.x)
          * ((UpdateCamera m s h camera).2.2.position.x
              - (UpdateCamera m s h camera).2.2.target.x)
        + ((UpdateCamera m s h camera).2.2.target.y - camera.target.y)
          * ((UpdateCamera m s h camera).2.2.position.y
              - (UpdateCamera m s h camera).2.2.target.y)
        + ((UpdateCamera m s h camera).2.2.target.z - camera.target.z)
          * ((UpdateCamera m s h camera).2.2.position.z
              - (UpdateCamera m s h camera).2.2.target.z) = 0) := by
  have main := free_pan_dot_value m s h camera hsc hm hw ha hp hz
  refine ⟨main, fun h0 => ?_⟩
  rw [main, h0]
  ring

end FreePan

section FreePanReal

theorem freeState_eval :
    (freeState ℝ).cameraAngle = ⟨45 * DEG2RAD ℝ, -40 * DEG2RAD ℝ⟩
      ∧ (freeState ℝ).cameraTargetDistance = 10
      ∧ (freeState ℝ).cameraMousePosition = ⟨0, 0⟩ := by
  simp only [freeState, SetCameraMode, CameraState.initial]
  norm_num [CAMERA_CUSTOM, CAMERA_FIRST_PERSON]

/-- C19, as stated, fails on a vertical pan: on the free camera set up by
`SetCameraMode(CAMERA_FREE)` (pitch −40·PI/180, distance 10), a drag of 100 pixels down
with the pan button held gives a target displacement whose dot product with the resulting
view offset is negative, not 0. -/
theorem updateCamera_free_pan_dot_counterexample :
    ((UpdateCamera ⟨Real.sin, Real.cos⟩ (freeState ℝ) (panHost ℝ 0 100)
            (viewCamera ℝ)).2.2.target.x - (viewCamera ℝ).target.x)
          * ((UpdateCamera ⟨Real.sin, Real.cos⟩ (freeState ℝ) (panHost ℝ 0 100)
              (viewCamera ℝ)).2.2.position.x
            - (UpdateCamera ⟨Real.sin, Real.cos⟩ (freeState ℝ) (panHost ℝ 0 100)
              (viewCamera ℝ)).2.2.target.x)
        + ((UpdateCamera ⟨Real.sin, Real.cos⟩ (freeState ℝ) (panHost ℝ 0 100)
            (viewCamera ℝ)).2.2.target.y - (viewCamera ℝ).target.y)
          * ((UpdateCamera ⟨Real.sin, Real.cos⟩ (freeState ℝ) (panHost ℝ 0 100)
              (viewCamera ℝ)).2.2.position.y
            - (UpdateCamera ⟨Real.sin, Real.cos⟩ (freeState ℝ) (panHost ℝ 0 100)
              (viewCamera ℝ)).2.2.target.y)
        + ((UpdateCamera ⟨Real.sin, Real.cos⟩ (freeState ℝ) (panHost ℝ 0 100)
            (viewCamera ℝ)).2.2.target.z - (viewCamera ℝ).target.z)
          * ((UpdateCamera ⟨Real.sin, Real.cos⟩ (freeState ℝ) (panHost ℝ 0 100)
              (viewCamera ℝ)).2.2.position.z
            - (UpdateCamera ⟨Real.sin, Real.cos⟩ (freeState ℝ) (panHost ℝ 0 100)
              (viewCamera ℝ)).2.2.target.z)
      < 0 := by
  obtain ⟨ea, ed, emp⟩ := freeState_eval
  have hv := (updateCamera_mouse ⟨Real.sin, Real.cos⟩ (freeState ℝ) (panHost ℝ 0 100)
    (viewCamera ℝ)).1
  rw [updateCameraMouse_free _ _ rfl, emp] at hv
  have val := free_pan_dot_value ⟨Real.sin, Real.cos⟩ (freeState ℝ) (panHost ℝ 0 100)
    (viewCamera ℝ) (fun x => Real.sin_sq_add_cos_sq x) rfl rfl rfl rfl rfl
  rw [val, hv, ea, ed]
  have hs := pitch40_sin_neg
  have hc := pitch40_cos_pos
  have h2 := Real.sin_sq_add_cos_sq (-40 * DEG2RAD ℝ)
  have hd : (0 : ℝ) < DEG2RAD ℝ := DEG2RAD_pos
  have hneg : -40 * DEG2RAD ℝ ≤ 0 := by linarith
  have h1s : 0 < 1 + Real.sin (-40 * DEG2RAD ℝ) := by nlinarith
  have e : -40 * DEG2RAD ℝ = -(40 * DEG2RAD ℝ) := by ring
  rw [e, Real.sin_neg] at hs h1s
  rw [e, Real.cos_neg] at hc
  have hprod : 0 < Real.cos (40 * DEG2RAD ℝ) * Real.sin (40 * DEG2RAD ℝ)
      * (1 + -Real.sin (40 * DEG2RAD ℝ)) :=
    mul_pos (mul_pos hc (by linarith)) h1s
  simp only [if_pos hneg, one_mul, panHost]
  norm_num
  nlinarith

/-- C19 on a horizontal pan: on the free camera set up by `SetCameraMode(CAMERA_FREE)`, a
drag of 100 pixels to the right with the pan button held moves the target perpendicularly
to the resulting view offset. -/
theorem updateCamera_free_pan_dot_witness :
    ((UpdateCamera ⟨Real.sin, Real.cos⟩ (freeState ℝ) (panHost ℝ 100 0)
            (viewCamera ℝ)).2.2.target.x - (viewCamera ℝ).target.x)
          * ((UpdateCamera ⟨Real.sin, Real.cos⟩ (freeState ℝ) (panHost ℝ 100 0)
              (viewCamera ℝ)).2.2.position.x
            - (UpdateCamera ⟨Real.sin, Real.cos⟩ (freeState ℝ) (panHost ℝ 100 0)
              (viewCamera ℝ)).2.2.target.x)
        + ((UpdateCamera ⟨Real.sin, Real.cos⟩ (freeState ℝ) (panHost ℝ 100 0)
            (viewCamera ℝ)).2.2.target.y - (viewCamera ℝ).target.y)
          * ((UpdateCamera ⟨Real.sin, Real.cos⟩ (freeState ℝ) (panHost ℝ 100 0)
              (viewCamera ℝ)).2.2.position.y
            - (UpdateCamera ⟨Real.sin, Real.cos⟩ (freeState ℝ) (panHost ℝ 100 0)
              (viewCamera ℝ)).2.2.target.y)
        + ((UpdateCamera ⟨Real.sin, Real.cos⟩ (freeState ℝ) (panHost ℝ 100 0)
            (viewCamera ℝ)).2.2.target.z - (viewCamera ℝ).target.z)
          * ((UpdateCamera ⟨Real.sin, Real.cos⟩ (freeState ℝ) (panHost ℝ 100 0)
              (viewCamera ℝ)).2.2.position.z
            - (UpdateCamera ⟨Real.sin, Real.cos⟩ (freeState ℝ) (panHost ℝ 100 0)
              (viewCamera ℝ)).2.2.target.z)
      = 0 := by
  obtain ⟨_, _, emp⟩ := freeState_eval
  have hv := (updateCamera_mouse ⟨Real.sin, Real.cos⟩ (freeState ℝ) (panHost ℝ 100 0)
    (viewCamera ℝ)).1
  rw [updateCameraMouse_free _ _ rfl, emp] at hv
  exact (updateCamera_free_pan_dot ⟨Real.sin, Real.cos⟩ (freeState ℝ) (panHost ℝ 100 0)
    (viewCamera ℝ) (fun x => Real.sin_sq_add_cos_sq x) rfl rfl rfl rfl rfl).2
    (by rw [hv]; simp [panHost])

end FreePanReal

section FreeZoom
variable {R : Type} [LinearOrderedField R]

/-- With the alt key up the inputs of the free camera leave the module state alone
(panning only moves the target). -/
theorem updateCameraFreeInputs_noAlt (m : MathH R) (s : CameraState R) (h : Host R)
    (panKey : Bool) (camera : Camera R) (ha : IsKeyDown h s.cameraAltControlKey = false) :
    (updateCameraFreeInputs m s h panKey camera).1 = s := by
  unfold updateCameraFreeInputs
  rw [ha]
  cases panKey <;> simp

/-- The wheel zoom of the free camera keeps a distance of [0.3, 120.0] in [0.3, 120.0]. -/
theorem updateCameraFreeZoom_range (s : CameraState R) (w : Int) (camera : Camera R)
    (hr : 0.3 ≤ s.cameraTargetDistance ∧ s.cameraTargetDistance ≤ 120.0) :
    0.3 ≤ (updateCameraFreeZoom s w camera).1.cameraTargetDistance
      ∧ (updateCameraFreeZoom s w camera).1.cameraTargetDistance ≤ 120.0 := by
  have hs : (0 : R) < CAMERA_SCROLL_SENSITIVITY R := by
    unfold CAMERA_SCROLL_SENSITIVITY
    norm_num
  have h03 : (0.3 : R) ≤ 120.0 := by norm_num
  obtain ⟨hlo, hhi⟩ := hr
  unfold updateCameraFreeZoom
  simp only [CAMERA_FREE_DISTANCE_MAX_CLAMP, CAMERA_FREE_DISTANCE_MIN_CLAMP, gt_iff_lt]
  split_ifs with c1 c2 c3 c4 c5 c6 c7 c8 c9 c10
  · exact ⟨h03, le_refl _⟩
  · have hw : (w : R) < 0 := by exact_mod_cast c1.2
    exact ⟨by nlinarith, not_lt.mp c2⟩
  · exact ⟨hlo, hhi⟩
  · exact ⟨hlo, hhi⟩
  · exact ⟨le_refl _, h03⟩
  · have hw : (0 : R) < (w : R) := by exact_mod_cast c5.2.2
    exact ⟨not_lt.mp c6, by nlinarith⟩
  · exact ⟨hlo, hhi⟩
  · exact ⟨hlo, hhi⟩
  · exact ⟨le_refl _, h03⟩
  · have hw : (0 : R) < (w : R) := by exact_mod_cast c9.2.2
    exact ⟨not_lt.mp c10, by nlinarith⟩
  · exact ⟨hlo, hhi⟩

/-- C20: the wheel zoom of the free camera keeps the distance clamped. In free mode with
the target distance in [0.3, 120.0] and the alt key up, after `UpdateCamera` the target
distance is in [0.3, 120.0]; and when the distance is below 120.0 and the wheel delta `w`
is negative, the new distance is exactly min(distance − 1.5·w, 120.0) and the zoom step
does not move the target. -/
theorem updateCamera_free_wheelZoom (m : MathH R) (s : CameraState R) (h : Host R)
    (camera : Camera R) (hm : s.cameraMode = CAMERA_FREE)
    (hr : 0.3 ≤ s.cameraTargetDistance ∧ s.cameraTargetDistance ≤ 120.0)
    (ha : IsKeyDown h s.cameraAltControlKey = false) :
    (0.3 ≤ (UpdateCamera m s h camera).1.cameraTargetDistance
      ∧ (UpdateCamera m s h camera).1.cameraTargetDistance ≤ 120.0)
    ∧ (s.cameraTargetDistance < 120.0 → GetMouseWheelMove h < 0 →
        (UpdateCamera m s h camera).1.cameraTargetDistance
            = min (s.cameraTargetDistance - 1.5 * (GetMouseWheelMove h : R)) 120.0
          ∧ (updateCameraFreeZoom (updateCameraMouse s h).1 (GetMouseWheelMove h)
              camera).2.target = camera.target) := by
  have ed := updateCameraMouse_cameraTargetDistance s h
  have hz := updateCameraFreeZoom_controls (updateCameraMouse s h).1 (GetMouseWheelMove h) camera
  have ha1 : IsKeyDown (updateCameraMouse s h).2
      (updateCameraFreeZoom (updateCameraMouse s h).1 (GetMouseWheelMove h)
        camera).1.cameraAltControlKey = false := by
    rw [hz.2.2.1]
    simpa [IsKeyDown, updateCameraMouse_keyDown, (updateCameraMouse_controls s h).2.2.1] using ha
  have step : (UpdateCamera m s h camera).1
      = (updateCameraFreeZoom (updateCameraMouse s h).1 (GetMouseWheelMove h) camera).1 := by
    rw [updateCamera_free_eq m s h camera hm]
    simp only [updateCameraFree]
    exact updateCameraFreeInputs_noAlt m _ _ _ _ ha1
  rw [step]
  refine ⟨updateCameraFreeZoom_range _ _ _ (by rw [ed]; exact hr), fun hd hw => ?_⟩
  have c1 : s.cameraTargetDistance < 120.0 ∧ GetMouseWheelMove h < 0 := ⟨hd, hw⟩
  simp only [updateCameraFreeZoom, ed, CAMERA_FREE_DISTANCE_MAX_CLAMP,
    CAMERA_SCROLL_SENSITIVITY, if_pos c1, and_true, gt_iff_lt]
  rw [mul_comm ((GetMouseWheelMove h : Int) : R) 1.5]
  split_ifs with c2
  · exact (min_eq_right (le_of_lt c2)).symm
  · exact (min_eq_left (not_lt.mp c2)).symm

/-- C20 on the free camera at distance 5.0 with a wheel delta of −2: the new distance is
min(5 + 3, 120). -/
theorem updateCamera_free_wheelZoom_witness :
    (UpdateCamera ⟨fun _ => (0 : ℚ), fun _ => 1⟩ (centredState ℚ CAMERA_FREE) (wheelHost ℚ (-2))
        (viewCamera ℚ)).1.cameraTargetDistance
      = min ((centredState ℚ CAMERA_FREE).cameraTargetDistance
          - 1.5 * ((GetMouseWheelMove (wheelHost ℚ (-2)) : Int) : ℚ)) 120.0 :=
  ((updateCamera_free_wheelZoom ⟨fun _ => (0 : ℚ), fun _ => 1⟩ (centredState ℚ CAMERA_FREE)
    (wheelHost ℚ (-2)) (viewCamera ℚ) rfl
    (by norm_num [centredState, CameraState.initial]) rfl).2
    (by norm_num [centredState, CameraState.initial]) (by decide)).1

end FreeZoom

/-! ## First person target, custom mode and the zoom dead zone -/

section Misc
variable {R : Type} [LinearOrderedField R]

/-- The keyboard stage reads only the angles, the key table and the key states, none of
which the mouse stage changes. -/
theorem updateCameraKeys_mouse (m : MathH R) (s : CameraState R) (h : Host R)
    (camera : Camera R) :
    updateCameraKeys m (updateCameraMouse s h).1 (updateCameraMouse s h).2 camera
      = updateCameraKeys m s h camera := by
  simp only [updateCameraKeys, IsKeyDown, updateCameraMouse_keyDown,
    (updateCameraMouse_controls s h).1, updateCameraMouse_cameraAngle]

/-- C21: first person look-at target. After an `UpdateCamera` in first person mode the
returned target is p + 25·(−sin(ax'), sin(ay'), −cos(ax')), where p is the position after
this frame's key translation (before the bob term is subtracted from `position.y`) and
ax', ay' are the angles stored by the call; the returned position is p with the bob term
subtracted from its y; and, for sine and cosine functions with sin² + cos² = 1,
(target.x − position.x)² + (target.z − position.z)² = 625 for the returned pose. -/
theorem updateCamera_firstPerson_target (m : MathH R) (s : CameraState R) (h : Host R)
    (camera : Camera R) (hm : s.cameraMode = CAMERA_FIRST_PERSON) :
    (UpdateCamera m s h camera).2.2.target
        = ⟨(updateCameraKeys m s h camera).1.position.x
              + 25 * -m.sin (UpdateCamera m s h camera).1.cameraAngle.x,
            (updateCameraKeys m s h camera).1.position.y
              + 25 * m.sin (UpdateCamera m s h camera).1.cameraAngle.y,
            (updateCameraKeys m s h camera).1.position.z
              + 25 * -m.cos (UpdateCamera m s h camera).1.cameraAngle.x⟩
    ∧ (UpdateCamera m s h camera).2.2.position.x = (updateCameraKeys m s h camera).1.position.x
    ∧ (UpdateCamera m s h camera).2.2.position.z = (updateCameraKeys m s h camera).1.position.z
    ∧ ((∀ x, m.sin x ^ 2 + m.cos x ^ 2 = 1) →
        ((UpdateCamera m s h camera).2.2.target.x - (UpdateCamera m s h camera).2.2.position.x) ^ 2
          + ((UpdateCamera m s h camera).2.2.target.z
              - (UpdateCamera m s h camera).2.2.position.z) ^ 2 = 625) := by
  have e := updateCameraMouse_cameraMode s h
  have ek := updateCameraKeys_mouse m s h camera
  have h3 : ¬ (CAMERA_FIRST_PERSON = CAMERA_FREE) := by decide
  have h4 : ¬ (CAMERA_FIRST_PERSON = CAMERA_ORBITAL) := by decide
  have h5 : ¬ (CAMERA_FIRST_PERSON = CAMERA_THIRD_PERSON) := by decide
  have z : (25.0 : R) = 25 := by norm_num
  have step : UpdateCamera m s h camera
      = ((updateCameraFirstPerson m (updateCameraMouse s h).1 (updateCameraKeys m s h camera).2
            (updateCameraKeys m s h camera).1).1,
          (updateCameraMouse s h).2,
          (updateCameraFirstPerson m (updateCameraMouse s h).1 (updateCameraKeys m s h camera).2
            (updateCameraKeys m s h camera).1).2) := by
    simp only [UpdateCamera, e, hm, h3, h4, h5, true_or, if_true, if_false, ek]
  rw [step]
  simp only [updateCameraFirstPerson, CAMERA_FIRST_PERSON_FOCUS_DISTANCE, z]
  refine ⟨?_, trivial, trivial, fun hsc => ?_⟩
  · congr 1 <;> ring
  · have hx := hsc ((updateCameraMouse s h).1.cameraAngle.x
      + (updateCameraMouse s h).1.cameraMouseVariation.x
        * -(updateCameraMouse s h).1.cameraMouseSensitivity)
    linear_combination 625 * hx

/-- C21 for the real sine and cosine on a walking frame of the first person camera. -/
theorem updateCamera_firstPerson_target_witness :
    ((UpdateCamera ⟨Real.sin, Real.cos⟩ (centredState ℝ CAMERA_FIRST_PERSON) (walkingHost ℝ)
          (originCamera ℝ)).2.2.target.x
        - (UpdateCamera ⟨Real.sin, Real.cos⟩ (centredState ℝ CAMERA_FIRST_PERSON)
          (walkingHost ℝ) (originCamera ℝ)).2.2.position.x) ^ 2
      + ((UpdateCamera ⟨Real.sin, Real.cos⟩ (centredState ℝ CAMERA_FIRST_PERSON)
          (walkingHost ℝ) (originCamera ℝ)).2.2.target.z
        - (UpdateCamera ⟨Real.sin, Real.cos⟩ (centredState ℝ CAMERA_FIRST_PERSON)
          (walkingHost ℝ) (originCamera ℝ)).2.2.position.z) ^ 2 = 625 :=
  (updateCamera_firstPerson_target ⟨Real.sin, Real.cos⟩ (centredState ℝ CAMERA_FIRST_PERSON)
    (walkingHost ℝ) (originCamera ℝ) rfl).2.2.2 (fun x => Real.sin_sq_add_cos_sq x)

/-- The mouse stage changes at most the mouse variation and the mouse position. -/
theorem updateCameraMouse_frame (s : CameraState R) (h : Host R) :
    (updateCameraMouse s h).1
      = { s with
          cameraMouseVariation := (updateCameraMouse s h).1.cameraMouseVariation
          cameraMousePosition := (updateCameraMouse s h).1.cameraMousePosition } := by
  unfold updateCameraMouse
  simp only
  split_ifs <;> rfl

/-- C23: `UpdateCamera` in custom mode never touches the camera. For every state whose mode
is `CAMERA_CUSTOM`, every camera and every input sample, the returned camera (position,
target, up) is the one passed in, and the returned state is the old one except for the
mouse variation and the mouse position: angles, target distance, move counter, mode,
key bindings and mouse sensitivity are unchanged. -/
theorem updateCamera_custom_frame (m : MathH R) (s : CameraState R) (h : Host R)
    (camera : Camera R) (hm : s.cameraMode = CAMERA_CUSTOM) :
    (UpdateCamera m s h camera).2.2 = camera
      ∧ (UpdateCamera m s h camera).1
        = { s with
            cameraMouseVariation := (UpdateCamera m s h camera).1.cameraMouseVariation
            cameraMousePosition := (UpdateCamera m s h camera).1.cameraMousePosition } := by
  have e := updateCameraMouse_cameraMode s h
  have h1 : ¬ (CAMERA_CUSTOM = CAMERA_FREE) := by decide
  have h2 : ¬ (CAMERA_CUSTOM = CAMERA_ORBITAL) := by decide
  have h3 : ¬ (CAMERA_CUSTOM = CAMERA_FIRST_PERSON) := by decide
  have h4 : ¬ (CAMERA_CUSTOM = CAMERA_THIRD_PERSON) := by decide
  have step : UpdateCamera m s h camera
      = ((updateCameraMouse s h).1, (updateCameraMouse s h).2, camera) := by
    simp only [UpdateCamera, e, hm, h1, h2, h3, h4, or_self, if_false]
  rw [step]
  exact ⟨rfl, updateCameraMouse_frame s h⟩

/-- C23 on the initial state (custom mode) with the pointer at the screen centre. -/
theorem updateCamera_custom_frame_witness :
    (UpdateCamera ⟨fun _ => (0 : ℚ), fun _ => 1⟩ (CameraState.initial ℚ) (restingHost ℚ)
        (viewCamera ℚ)).2.2 = viewCamera ℚ :=
  (updateCamera_custom_frame ⟨fun _ => (0 : ℚ), fun _ => 1⟩ (CameraState.initial ℚ)
    (restingHost ℚ) (viewCamera ℚ) rfl).1

/-- C24: wheel dead zone of the free camera at equal heights. For every state and every
camera with `position.y = target.y` on entry, the zoom step of the free camera changes
neither the module state (hence the target distance) nor the camera (hence the target)
when the wheel delta is positive, and when it is negative while the target distance is
at least 120.0: none of the seven zoom branches fires. The equal heights are what the
position update writes at pitch 0 when sin 0 = 0. -/
theorem updateCameraFreeZoom_deadZone (m : MathH R) (s : CameraState R) (h : Host R)
    (camera : Camera R) (hy : camera.position.y = camera.target.y) :
    (GetMouseWheelMove h > 0 →
        updateCameraFreeZoom (updateCameraMouse s h).1 (GetMouseWheelMove h) camera
          = ((updateCameraMouse s h).1, camera))
    ∧ (GetMouseWheelMove h < 0 → s.cameraTargetDistance ≥ 120.0 →
        updateCameraFreeZoom (updateCameraMouse s h).1 (GetMouseWheelMove h) camera
          = ((updateCameraMouse s h).1, camera))
    ∧ (m.sin 0 = 0 → ∀ (a : Vector2 R) (d : R), a.y = 0 →
        (cameraPositionUpdate m a d camera).position.y
          = (cameraPositionUpdate m a d camera).target.y) := by
  have ed := updateCameraMouse_cameraTargetDistance s h
  refine ⟨fun hw => ?_, fun hw hd => ?_, fun h0 a d ha => ?_⟩
  · have n1 : ¬ GetMouseWheelMove h < 0 := not_lt.mpr hw.le
    simp only [updateCameraFreeZoom, hy, n1, gt_iff_lt, lt_irrefl, and_false, false_and,
      if_false]
  · have n1 : ¬ (updateCameraMouse s h).1.cameraTargetDistance
        < CAMERA_FREE_DISTANCE_MAX_CLAMP R := by
      rw [ed]
      exact not_lt.mpr hd
    simp only [updateCameraFreeZoom, hy, n1, gt_iff_lt, lt_irrefl, and_false, false_and,
      if_false]
  · simp only [cameraPositionUpdate, ha, h0]
    split_ifs <;> ring

/-- C24 on a camera whose position and target are both at height 0, with a wheel delta
of 2: the zoom step returns the state and the camera it was given. -/
theorem updateCameraFreeZoom_deadZone_witness :
    updateCameraFreeZoom (updateCameraMouse (centredState ℚ CAMERA_FREE) (wheelHost ℚ 2)).1
        (GetMouseWheelMove (wheelHost ℚ 2)) (originCamera ℚ)
      = ((updateCameraMouse (centredState ℚ CAMERA_FREE) (wheelHost ℚ 2)).1, originCamera ℚ) :=
  (updateCameraFreeZoom_deadZone ⟨fun _ => (0 : ℚ), fun _ => 1⟩ (centredState ℚ CAMERA_FREE)
    (wheelHost ℚ 2) (originCamera ℚ) rfl).1 (by decide)

end Misc

/-! ## Re-sampling and re-centering of the pointer -/

section Resample
variable {R : Type} [LinearOrderedField R]

/-- When no edge guard fires the mouse stage accumulates the variation and leaves the
pointer where it was sampled. -/
theorem updateCameraMouse_accumulates (s : CameraState R) (h : Host R)
    (hn : ¬ repositions s h) :
    (updateCameraMouse s h).1.cameraMouseVariation
        = ⟨h.mousePosition.x - s.cameraMousePosition.x,
            h.mousePosition.y - s.cameraMousePosition.y⟩
      ∧ (updateCameraMouse s h).2.mousePosition = h.mousePosition := by
  unfold repositions at hn
  simp only [GetMousePosition, GetScreenHeight, GetScreenWidth] at hn
  by_cases hfo : s.cameraMode ≠ CAMERA_FREE ∧ s.cameraMode ≠ CAMERA_ORBITAL
  · have hg := not_and.mp hn hfo
    push_neg at hg
    obtain ⟨g1, g2, g3, g4⟩ := hg
    simp only [updateCameraMouse, GetMousePosition, GetScreenHeight, GetScreenWidth,
      if_pos hfo, if_neg (not_lt.mpr g1), if_neg (not_lt.mpr g2), if_neg (not_lt.mpr g3),
      if_neg (not_lt.mpr g4), gt_iff_lt, HideCursor, and_self]
  · simp only [updateCameraMouse, GetMousePosition, if_neg hfo, ShowCursor, and_self]

/-- When an edge guard fires the mouse stage issues one `SetMousePosition` after
`HideCursor`, and the host pointer is at the position passed to it. -/
theorem updateCameraMouse_repositions (s : CameraState R) (h : Host R)
    (hr : repositions s h) :
    ∃ pos : Vector2 R,
      (updateCameraMouse s h).2.calls = h.calls ++ [Call.HideCursor, Call.SetMousePosition pos]
        ∧ (updateCameraMouse s h).2.mousePosition = pos := by
  obtain ⟨hfo, hg⟩ := hr
  simp only [GetMousePosition, GetScreenHeight, GetScreenWidth] at hg
  simp only [updateCameraMouse, GetMousePosition, GetScreenHeight, GetScreenWidth, if_pos hfo]
  split_ifs with g1 g2 g3 g4
  · exact ⟨_, by simp [SetMousePosition, HideCursor], rfl⟩
  · exact ⟨_, by simp [SetMousePosition, HideCursor], rfl⟩
  · exact ⟨_, by simp [SetMousePosition, HideCursor], rfl⟩
  · exact ⟨_, by simp [SetMousePosition, HideCursor], rfl⟩
  · rcases hg with g | g | g | g
    · exact absurd g g1
    · exact absurd g g2
    · exact absurd g g3
    · exact absurd g g4

theorem updateCameraMouse_resample (s : CameraState R) (h : Host R) :
    (updateCameraMouse s h).1.cameraMousePosition
      = GetMousePosition (updateCameraMouse s h).2 := by
  simp only [updateCameraMouse]

/-- C22: the mouse position is re-sampled after any repositioning. With a host whose
`GetMousePosition` returns the last position passed to `SetMousePosition`: after every
`UpdateCamera`, `cameraMousePosition` is the pointer position of the host after the call,
which is the position passed to `SetMousePosition` when edge confinement fired in this
frame and the sampled pointer position otherwise; hence, if the next frame finds the
pointer where this frame left it and accumulates a variation (no edge guard fires in
it), that variation is (0, 0). -/
theorem updateCamera_resample (m : MathH R) (s : CameraState R) (h : Host R)
    (camera : Camera R) :
    (UpdateCamera m s h camera).1.cameraMousePosition
        = GetMousePosition (UpdateCamera m s h camera).2.1
    ∧ (repositions s h → ∃ pos : Vector2 R,
        (UpdateCamera m s h camera).2.1.calls
            = h.calls ++ [Call.HideCursor, Call.SetMousePosition pos]
          ∧ (UpdateCamera m s h camera).1.cameraMousePosition = pos)
    ∧ (¬ repositions s h →
        (UpdateCamera m s h camera).1.cameraMousePosition = GetMousePosition h)
    ∧ (∀ (h2 : Host R) (camera2 : Camera R),
        GetMousePosition h2 = GetMousePosition (UpdateCamera m s h camera).2.1 →
        ¬ repositions (UpdateCamera m s h camera).1 h2 →
        (UpdateCamera m (UpdateCamera m s h camera).1 h2 camera2).1.cameraMouseVariation
          = ⟨0, 0⟩) := by
  have e1 : (UpdateCamera m s h camera).1.cameraMousePosition
      = GetMousePosition (UpdateCamera m s h camera).2.1 := by
    rw [(updateCamera_mouse m s h camera).2, updateCamera_host, updateCameraMouse_resample]
  refine ⟨e1, fun hr => ?_, fun hn => ?_, fun h2 camera2 hp hn => ?_⟩
  · obtain ⟨pos, hc, hpos⟩ := updateCameraMouse_repositions s h hr
    refine ⟨pos, ?_, ?_⟩
    · rw [updateCamera_host, hc]
    · rw [e1, updateCamera_host]
      exact hpos
  · rw [e1, updateCamera_host]
    exact (updateCameraMouse_accumulates s h hn).2
  · rw [(updateCamera_mouse m _ h2 camera2).1, (updateCameraMouse_accumulates _ h2 hn).1, e1,
      ← hp]
    simp only [GetMousePosition, sub_self]

/-- C22 on the edge scenario: in first person mode on the 1280x720 screen the pointer
sampled at (1200, 360) is moved to (240, 360); the next frame finds it there, fires no
edge guard and accumulates the variation (0, 0). -/
theorem updateCamera_resample_witness :
    (UpdateCamera ⟨fun _ => (0 : ℚ), fun _ => 1⟩
        (UpdateCamera ⟨fun _ => (0 : ℚ), fun _ => 1⟩ (centredState ℚ CAMERA_FIRST_PERSON)
          (pointerHost ℚ 1200 360) (originCamera ℚ)).1
        (pointerHost ℚ 240 360) (originCamera ℚ)).1.cameraMouseVariation = ⟨0, 0⟩ := by
  have hb : Int.tdiv 720 3 = 240 := by decide
  have hm : (UpdateCamera ⟨fun _ => (0 : ℚ), fun _ => 1⟩ (centredState ℚ CAMERA_FIRST_PERSON)
      (pointerHost ℚ 1200 360) (originCamera ℚ)).1.cameraMode = CAMERA_FIRST_PERSON := by
    rw [updateCamera_cameraMode]
    rfl
  have hp : GetMousePosition (pointerHost ℚ 240 360)
      = GetMousePosition (UpdateCamera ⟨fun _ => (0 : ℚ), fun _ => 1⟩
          (centredState ℚ CAMERA_FIRST_PERSON) (pointerHost ℚ 1200 360)
          (originCamera ℚ)).2.1 := by
    rw [updateCamera_host]
    norm_num [updateCameraMouse, centredState, pointerHost, Host.standalone, GetMousePosition,
      GetScreenHeight, GetScreenWidth, SetMousePosition, HideCursor, hb, CAMERA_FIRST_PERSON,
      CAMERA_FREE, CAMERA_ORBITAL]
  have hn : ¬ repositions (UpdateCamera ⟨fun _ => (0 : ℚ), fun _ => 1⟩
      (centredState ℚ CAMERA_FIRST_PERSON) (pointerHost ℚ 1200 360) (originCamera ℚ)).1
      (pointerHost ℚ 240 360) := by
    norm_num [repositions, hm, pointerHost, Host.standalone, GetMousePosition, GetScreenHeight,
      GetScreenWidth, hb]
  exact (updateCamera_resample ⟨fun _ => (0 : ℚ), fun _ => 1⟩
    (centredState ℚ CAMERA_FIRST_PERSON) (pointerHost ℚ 1200 360) (originCamera ℚ)).2.2.2
    (pointerHost ℚ 240 360) (originCamera ℚ) hp hn

end Resample

section Recentre
variable {R : Type} [LinearOrderedField R]

theorem band_le_height (H : Int) (hH : 0 ≤ H) : Int.tdiv H 3 ≤ H - Int.tdiv H 3 := by
  rw [Int.tdiv_eq_ediv hH (by decide)]
  omega

/-- A pointer whose x is outside both vertical edge bands keeps its x through the mouse
stage, and likewise for y and the horizontal bands. -/
theorem updateCameraMouse_axis_kept (s : CameraState R) (h : Host R) :
    (¬ h.mousePosition.x < ((Int.tdiv h.screenHeight 3 : Int) : R) →
        ¬ h.mousePosition.x > ((h.screenWidth - Int.tdiv h.screenHeight 3 : Int) : R) →
        (updateCameraMouse s h).2.mousePosition.x = h.mousePosition.x)
    ∧ (¬ h.mousePosition.y < ((Int.tdiv h.screenHeight 3 : Int) : R) →
        ¬ h.mousePosition.y > ((h.screenHeight - Int.tdiv h.screenHeight 3 : Int) : R) →
        (updateCameraMouse s h).2.mousePosition.y = h.mousePosition.y) := by
  constructor
  · intro g1 g3
    simp only [updateCameraMouse, GetMousePosition, GetScreenHeight, GetScreenWidth, if_neg g1,
      if_neg g3]
    split_ifs <;> rfl
  · intro g2 g4
    simp only [updateCameraMouse, GetMousePosition, GetScreenHeight, GetScreenWidth, if_neg g2,
      if_neg g4]
    split_ifs <;> rfl

/-- The pointer position after the mouse stage in each of the four edge cases. -/
theorem updateCameraMouse_edge (s : CameraState R) (h : Host R)
    (hfo : s.cameraMode ≠ CAMERA_FREE ∧ s.cameraMode ≠ CAMERA_ORBITAL) :
    (h.mousePosition.x < ((Int.tdiv h.screenHeight 3 : Int) : R) →
        (updateCameraMouse s h).2.mousePosition
          = ⟨((h.screenWidth - Int.tdiv h.screenHeight 3 : Int) : R), h.mousePosition.y⟩)
    ∧ (¬ h.mousePosition.x < ((Int.tdiv h.screenHeight 3 : Int) : R) →
        h.mousePosition.y < ((Int.tdiv h.screenHeight 3 : Int) : R) →
        (updateCameraMouse s h).2.mousePosition
          = ⟨h.mousePosition.x, ((h.screenHeight - Int.tdiv h.screenHeight 3 : Int) : R)⟩)
    ∧ (¬ h.mousePosition.x < ((Int.tdiv h.screenHeight 3 : Int) : R) →
        ¬ h.mousePosition.y < ((Int.tdiv h.screenHeight 3 : Int) : R) →
        h.mousePosition.x > ((h.screenWidth - Int.tdiv h.screenHeight 3 : Int) : R) →
        (updateCameraMouse s h).2.mousePosition
          = ⟨((Int.tdiv h.screenHeight 3 : Int) : R), h.mousePosition.y⟩)
    ∧ (¬ h.mousePosition.x < ((Int.tdiv h.screenHeight 3 : Int) : R) →
        ¬ h.mousePosition.y < ((Int.tdiv h.screenHeight 3 : Int) : R) →
        ¬ h.mousePosition.x > ((h.screenWidth - Int.tdiv h.screenHeight 3 : Int) : R) →
        h.mousePosition.y > ((h.screenHeight - Int.tdiv h.screenHeight 3 : Int) : R) →
        (updateCameraMouse s h).2.mousePosition
          = ⟨h.mousePosition.x, ((Int.tdiv h.screenHeight 3 : Int) : R)⟩) := by
  refine ⟨fun h1 => ?_, fun h1 h2 => ?_, fun h1 h2 h3 => ?_, fun h1 h2 h3 h4 => ?_⟩
  · simp only [updateCameraMouse, GetMousePosition, GetScreenHeight, GetScreenWidth,
      if_pos hfo, if_pos h1, SetMousePosition]
  · simp only [updateCameraMouse, GetMousePosition, GetScreenHeight, GetScreenWidth,
      if_pos hfo, if_neg h1, if_pos h2, SetMousePosition]
  · simp only [updateCameraMouse, GetMousePosition, GetScreenHeight, GetScreenWidth,
      if_pos hfo, if_neg h1, if_neg h2, if_pos h3, SetMousePosition]
  · simp only [updateCameraMouse, GetMousePosition, GetScreenHeight, GetScreenWidth,
      if_pos hfo, if_neg h1, if_neg h2, if_neg h3, if_pos h4, SetMousePosition]

/-- C25: re-centering does not re-trigger itself. In a mode other than free and orbital, on
a screen of height H ≥ 0 and width W ≥ 2·b with b = H/3 (integer division): b ≤ W − b and
b ≤ H − b; when the x guards reposition the pointer (x < b, or else x > W − b) the new x
satisfies b ≤ x ≤ W − b, and a next `UpdateCamera` on the same screen that finds the
pointer where it was put leaves its x alone; when the y guards reposition it the same
holds for y and [b, H − b]. On the 100x720 screen, where W < 2·b, a pointer repositioned
from the left band is again inside the left band. -/
theorem updateCamera_recentre_stable (m : MathH R) (s : CameraState R) (h : Host R)
    (camera : Camera R) (hf : s.cameraMode ≠ CAMERA_FREE) (ho : s.cameraMode ≠ CAMERA_ORBITAL)
    (hh : 0 ≤ h.screenHeight) (hw : 2 * Int.tdiv h.screenHeight 3 ≤ h.screenWidth) :
    (((Int.tdiv h.screenHeight 3 : Int) : R)
          ≤ ((h.screenWidth - Int.tdiv h.screenHeight 3 : Int) : R)
      ∧ ((Int.tdiv h.screenHeight 3 : Int) : R)
          ≤ ((h.screenHeight - Int.tdiv h.screenHeight 3 : Int) : R))
    ∧ ((h.mousePosition.x < ((Int.tdiv h.screenHeight 3 : Int) : R)
          ∨ (¬ h.mousePosition.x < ((Int.tdiv h.screenHeight 3 : Int) : R)
            ∧ ¬ h.mousePosition.y < ((Int.tdiv h.screenHeight 3 : Int) : R)
            ∧ h.mousePosition.x
                > ((h.screenWidth - Int.tdiv h.screenHeight 3 : Int) : R))) →
        ((Int.tdiv h.screenHeight 3 : Int) : R)
            ≤ (UpdateCamera m s h camera).2.1.mousePosition.x
          ∧ (UpdateCamera m s h camera).2.1.mousePosition.x
            ≤ ((h.screenWidth - Int.tdiv h.screenHeight 3 : Int) : R)
          ∧ ∀ (h2 : Host R) (camera2 : Camera R), h2.screenWidth = h.screenWidth →
              h2.screenHeight = h.screenHeight →
              h2.mousePosition = (UpdateCamera m s h camera).2.1.mousePosition →
              (UpdateCamera m (UpdateCamera m s h camera).1 h2 camera2).2.1.mousePosition.x
                = (UpdateCamera m s h camera).2.1.mousePosition.x)
    ∧ (((¬ h.mousePosition.x < ((Int.tdiv h.screenHeight 3 : Int) : R)
            ∧ h.mousePosition.y < ((Int.tdiv h.screenHeight 3 : Int) : R))
          ∨ (¬ h.mousePosition.x < ((Int.tdiv h.screenHeight 3 : Int) : R)
            ∧ ¬ h.mousePosition.y < ((Int.tdiv h.screenHeight 3 : Int) : R)
            ∧ ¬ h.mousePosition.x
                > ((h.screenWidth - Int.tdiv h.screenHeight 3 : Int) : R)
            ∧ h.mousePosition.y
                > ((h.screenHeight - Int.tdiv h.screenHeight 3 : Int) : R))) →
        ((Int.tdiv h.screenHeight 3 : Int) : R)
            ≤ (UpdateCamera m s h camera).2.1.mousePosition.y
          ∧ (UpdateCamera m s h camera).2.1.mousePosition.y
            ≤ ((h.screenHeight - Int.tdiv h.screenHeight 3 : Int) : R)
          ∧ ∀ (h2 : Host R) (camera2 : Camera R), h2.screenWidth = h.screenWidth →
              h2.screenHeight = h.screenHeight →
              h2.mousePosition = (UpdateCamera m s h camera).2.1.mousePosition →
              (UpdateCamera m (UpdateCamera m s h camera).1 h2 camera2).2.1.mousePosition.y
                = (UpdateCamera m s h camera).2.1.mousePosition.y)
    ∧ ((({ Host.standalone R with screenWidth := 100 } : Host R).screenWidth
          < 2 * Int.tdiv ({ Host.standalone R with screenWidth := 100 } : Host R).screenHeight 3)
      ∧ ({ Host.standalone R with screenWidth := 100 } : Host R).mousePosition.x
          < ((Int.tdiv ({ Host.standalone R with screenWidth := 100 } : Host R).screenHeight 3
              : Int) : R)
      ∧ (UpdateCamera m s { Host.standalone R with screenWidth := 100 }
            camera).2.1.mousePosition.x
          < ((Int.tdiv ({ Host.standalone R with screenWidth := 100 } : Host R).screenHeight 3
              : Int) : R)) := by
  have hfo : s.cameraMode ≠ CAMERA_FREE ∧ s.cameraMode ≠ CAMERA_ORBITAL := ⟨hf, ho⟩
  have bW : ((Int.tdiv h.screenHeight 3 : Int) : R)
      ≤ ((h.screenWidth - Int.tdiv h.screenHeight 3 : Int) : R) := by
    have : Int.tdiv h.screenHeight 3 ≤ h.screenWidth - Int.tdiv h.screenHeight 3 := by omega
    exact_mod_cast this
  have bH : ((Int.tdiv h.screenHeight 3 : Int) : R)
      ≤ ((h.screenHeight - Int.tdiv h.screenHeight 3 : Int) : R) := by
    have := band_le_height h.screenHeight hh
    exact_mod_cast this
  obtain ⟨e1, e2, e3, e4⟩ := updateCameraMouse_edge s h hfo
  simp only [updateCamera_host]
  refine ⟨⟨bW, bH⟩, fun hx => ?_, fun hy => ?_, ?_⟩
  · have hp : (updateCameraMouse s h).2.mousePosition.x
          = ((h.screenWidth - Int.tdiv h.screenHeight 3 : Int) : R)
        ∨ (updateCameraMouse s h).2.mousePosition.x
          = ((Int.tdiv h.screenHeight 3 : Int) : R) := by
      rcases hx with h1 | ⟨h1, h2, h3⟩
      · left
        rw [e1 h1]
      · right
        rw [e3 h1 h2 h3]
    have lo : ((Int.tdiv h.screenHeight 3 : Int) : R)
        ≤ (updateCameraMouse s h).2.mousePosition.x := by
      rcases hp with hp | hp <;> rw [hp]
      exact bW
    have hi : (updateCameraMouse s h).2.mousePosition.x
        ≤ ((h.screenWidth - Int.tdiv h.screenHeight 3 : Int) : R) := by
      rcases hp with hp | hp <;> rw [hp]
      exact bW
    refine ⟨lo, hi, fun h2 camera2 hW hH hP => ?_⟩
    have k := (updateCameraMouse_axis_kept (UpdateCamera m s h camera).1 h2).1
    rw [hW, hH, hP] at k
    exact k (not_lt.mpr lo) (not_lt.mpr hi)
  · have hp : (updateCameraMouse s h).2.mousePosition.y
          = ((h.screenHeight - Int.tdiv h.screenHeight 3 : Int) : R)
        ∨ (updateCameraMouse s h).2.mousePosition.y
          = ((Int.tdiv h.screenHeight 3 : Int) : R) := by
      rcases hy with ⟨h1, h2⟩ | ⟨h1, h2, h3, h4⟩
      · left
        rw [e2 h1 h2]
      · right
        rw [e4 h1 h2 h3 h4]
    have lo : ((Int.tdiv h.screenHeight 3 : Int) : R)
        ≤ (updateCameraMouse s h).2.mousePosition.y := by
      rcases hp with hp | hp <;> rw [hp]
      exact bH
    have hi : (updateCameraMouse s h).2.mousePosition.y
        ≤ ((h.screenHeight - Int.tdiv h.screenHeight 3 : Int) : R) := by
      rcases hp with hp | hp <;> rw [hp]
      exact bH
    refine ⟨lo, hi, fun h2 camera2 _ hH hP => ?_⟩
    have k := (updateCameraMouse_axis_kept (UpdateCamera m s h camera).1 h2).2
    rw [hH, hP] at k
    exact k (not_lt.mpr lo) (not_lt.mpr hi)
  · have hb : Int.tdiv 720 3 = 240 := by decide
    have c1 : (0.0 : R) < ((240 : Int) : R) := by norm_num
    refine ⟨by simp only [Host.standalone, hb]; decide, by simpa only [Host.standalone, hb] using c1, ?_⟩
    have e := (updateCameraMouse_edge s ({ Host.standalone R with screenWidth := 100 } : Host R)
      hfo).1 (by simpa only [Host.standalone, hb] using c1)
    rw [e]
    simp only [Host.standalone, hb]
    norm_num

/-- C25 on the edge scenario: first person mode, 1280x720 screen (b = 240, W − b = 1040),
pointer sampled at (1200, 360): the new x is within [240, 1040]. -/
theorem updateCamera_recentre_stable_witness :
    ((Int.tdiv (pointerHost ℚ 1200 360).screenHeight 3 : Int) : ℚ)
        ≤ (UpdateCamera ⟨fun _ => (0 : ℚ), fun _ => 1⟩ (centredState ℚ CAMERA_FIRST_PERSON)
            (pointerHost ℚ 1200 360) (originCamera ℚ)).2.1.mousePosition.x
      ∧ (UpdateCamera ⟨fun _ => (0 : ℚ), fun _ => 1⟩ (centredState ℚ CAMERA_FIRST_PERSON)
            (pointerHost ℚ 1200 360) (originCamera ℚ)).2.1.mousePosition.x
        ≤ (((pointerHost ℚ 1200 360).screenWidth
            - Int.tdiv (pointerHost ℚ 1200 360).screenHeight 3 : Int) : ℚ) := by
  have hb : Int.tdiv 720 3 = 240 := by decide
  have w := (updateCamera_recentre_stable ⟨fun _ => (0 : ℚ), fun _ => 1⟩
    (centredState ℚ CAMERA_FIRST_PERSON) (pointerHost ℚ 1200 360) (originCamera ℚ)
    (by decide) (by decide) (by decide) (by decide)).2.1
    (Or.inr (by norm_num [pointerHost, Host.standalone, hb]))
  exact ⟨w.1, w.2.1⟩

end Recentre

end RayCamera
